import Mathlib

/-!
# The `basisrs` C-ABI shim over the Basis Universal transcoder

A shallow embedding of `basis-sys/src/basisrs_interface.cpp` and
`basis-sys/src/basisrs_interface.hpp`.

* Heap objects are named by identity: the k-th object a class constructs with `new` has
  identity `k`, and an identity is never given out twice. A pointer is an `Option Nat`,
  `none` being `nullptr`.
* The process state the shim touches is the static `g_pGlobal_codebook`, the heap of
  `etc1_global_selector_codebook` objects, the heap of `basisu_transcoder` objects and the
  lookup tables of the wrapped library (whatever `basisu_transcoder_init()` initialises);
  the last is a type parameter, and `basisu_transcoder_init` a function parameter.
* The wrapped class `basist::basisu_transcoder` lives in `../basisu/transcoder/`, outside
  the two files embedded here; the shim functions take its methods as a parameter.
-/

namespace BasisRs

/-! ## Process state -/

/-- Nullable pointer to a heap object, by object identity; `none` is `nullptr`. -/
abbrev Ptr := Option Nat

/-- Process state seen by the shim. `L` is the state of the wrapped library's lookup tables.
`cb_*` is the heap of `etc1_global_selector_codebook` objects, `tr_*` the heap of
`basisu_transcoder` objects; a live transcoder is stored with the codebook pointer its
constructor received. The `*_destroyed` lists log every `delete`, most recent first. -/
structure Global (L : Type) where
  tables : L
  g_pGlobal_codebook : Ptr
  cb_constructed : Nat
  cb_live : List Nat
  cb_destroyed : List Nat
  tr_constructed : Nat
  tr_live : List (Nat × Ptr)
  tr_destroyed : List Nat
deriving DecidableEq, Repr

/-- State at program start: the static pointer is zero-initialised and nothing has been
constructed. -/
def Global.initial {L : Type} (t : L) : Global L :=
  { tables := t, g_pGlobal_codebook := none, cb_constructed := 0, cb_live := [],
    cb_destroyed := [], tr_constructed := 0, tr_live := [], tr_destroyed := [] }

/-- The expression `new basist::etc1_global_selector_codebook(g_global_selector_cb_size,
g_global_selector_cb)`: the fresh object and the heap with it. -/
def new_codebook {L : Type} (s : Global L) : Nat × Global L :=
  (s.cb_constructed,
    { s with cb_constructed := s.cb_constructed + 1, cb_live := s.cb_constructed :: s.cb_live })

/-- The statement `delete p` on a codebook pointer. -/
def delete_codebook {L : Type} (p : Nat) (s : Global L) : Global L :=
  { s with cb_live := s.cb_live.filter (fun q => q ≠ p), cb_destroyed := p :: s.cb_destroyed }

/-- Source: `void basisrs_init()`. -/
def basisrs_init {L : Type} (basisu_transcoder_init : L → L) (s : Global L) : Global L :=
  let s1 := { s with tables := basisu_transcoder_init s.tables }
  match s1.g_pGlobal_codebook with
  | none =>
    let r := new_codebook s1
    { r.2 with g_pGlobal_codebook := some r.1 }
  | some _ => s1

/-- Source: `void basisrs_deinit()`. -/
def basisrs_deinit {L : Type} (s : Global L) : Global L :=
  match s.g_pGlobal_codebook with
  | some p => { delete_codebook p s with g_pGlobal_codebook := none }
  | none => s

/-- Source: `basisu_transcoder *basisrs_create_transcoder()`, that is
`new basisu_transcoder(g_pGlobal_codebook)`: the pointer returned and the state after. -/
def basisrs_create_transcoder {L : Type} (s : Global L) : Ptr × Global L :=
  (some s.tr_constructed,
    { s with tr_constructed := s.tr_constructed + 1,
             tr_live := (s.tr_constructed, s.g_pGlobal_codebook) :: s.tr_live })

/-- Source: `void basisrs_destroy_transcoder(basisu_transcoder *me)`, that is `delete me`;
deleting `nullptr` does nothing. The destructor of the wrapped class releases the
transcoder and leaves alone the codebook its constructor was given, which every
transcoder shares and `basisrs_deinit` deletes. -/
def basisrs_destroy_transcoder {L : Type} (me : Ptr) (s : Global L) : Global L :=
  match me with
  | none => s
  | some t =>
    { s with tr_live := s.tr_live.filter (fun o => o.1 ≠ t), tr_destroyed := t :: s.tr_destroyed }

/-- The codebook pointer the live transcoder `me` was constructed with, `none` when `me` is
not a live transcoder. -/
def codebook_of {L : Type} (s : Global L) (me : Nat) : Option Ptr :=
  (s.tr_live.find? (fun o => o.1 == me)).map (fun o => o.2)

/-! ## Call sequences -/

/-- The two process-wide lifecycle entry points. -/
inductive LifecycleCall where
  | init
  | deinit
deriving DecidableEq, Repr

/-- The four entry points that construct or destroy objects. -/
inductive Call where
  | init
  | deinit
  | create
  | destroy (me : Ptr)
deriving DecidableEq, Repr

/-- A lifecycle call as one of the four object-lifetime calls. -/
def LifecycleCall.toCall : LifecycleCall → Call
  | .init => .init
  | .deinit => .deinit

/-- Effect of one call on the process state (the pointer `create` returns is dropped). -/
def apiStep {L : Type} (basisu_transcoder_init : L → L) (c : Call) (s : Global L) : Global L :=
  match c with
  | .init => basisrs_init basisu_transcoder_init s
  | .deinit => basisrs_deinit s
  | .create => (basisrs_create_transcoder s).2
  | .destroy me => basisrs_destroy_transcoder me s

/-- Effect of a sequence of calls, first call first. -/
def run {L : Type} (basisu_transcoder_init : L → L) (cs : List Call) (s : Global L) : Global L :=
  cs.foldl (fun st c => apiStep basisu_transcoder_init c st) s

/-- Effect of a sequence of `basisrs_init` / `basisrs_deinit` calls, first call first. -/
def runLifecycle {L : Type} (basisu_transcoder_init : L → L) (cs : List LifecycleCall)
    (s : Global L) : Global L :=
  run basisu_transcoder_init (cs.map LifecycleCall.toCall) s

/-- Every live transcoder is bound to a codebook that is live. -/
def sessionsBoundToLiveCodebook {L : Type} (s : Global L) : Bool :=
  s.tr_live.all (fun o =>
    match o.2 with
    | some p => s.cb_live.contains p
    | none => false)

/-- Whether the caller may make call `c` in state `s` under the usage protocol: a
transcoder is created only while the global codebook is constructed, and `basisrs_deinit`
is called only while no transcoder is live. -/
def callAllowed {L : Type} (c : Call) (s : Global L) : Bool :=
  match c with
  | .create => s.g_pGlobal_codebook.isSome
  | .deinit => s.tr_live.isEmpty
  | _ => true

/-- Whether every call of the sequence is allowed in the state it is made in. -/
def followsProtocol {L : Type} (basisu_transcoder_init : L → L) :
    List Call → Global L → Bool
  | [], _ => true
  | c :: cs, s =>
    callAllowed c s && followsProtocol basisu_transcoder_init cs (apiStep basisu_transcoder_init c s)

/-- Heap invariant of the global codebook: the live codebooks are exactly the one the global
pointer holds, every identity in use has been constructed, no codebook was deleted twice,
the codebook the pointer holds has not been deleted, and every constructed codebook is
either live or deleted. -/
def CodebookInv {L : Type} (s : Global L) : Prop :=
  s.cb_live = s.g_pGlobal_codebook.toList ∧
  (∀ p, s.g_pGlobal_codebook = some p → p < s.cb_constructed) ∧
  (∀ p ∈ s.cb_destroyed, p < s.cb_constructed) ∧
  s.cb_destroyed.Nodup ∧
  (∀ p, s.g_pGlobal_codebook = some p → p ∉ s.cb_destroyed) ∧
  s.cb_constructed = s.cb_destroyed.length + s.cb_live.length

/-! ## Data model of `basisrs_interface.hpp` -/

/-- A `void *` or `const void *` argument: `none` is `nullptr`, `some m` the bytes addressed
through the pointer. -/
abbrev VoidPtr := Option (List Nat)

/-- Source: `enum class block_format`, by underlying `int` value. -/
abbrev block_format := Int

/-- Source: `enum class basis_tex_format`, by underlying `int` value. -/
abbrev basis_tex_format := Int

/-- Source: `enum basis_texture_type`, by underlying value. -/
abbrev basis_texture_type := Int

/-- Source: `enum class transcoder_texture_format`, by underlying `int` value. -/
abbrev transcoder_texture_format := Int

/-- Source: `struct basisu_slice_info`. -/
structure basisu_slice_info where
  m_orig_width : Nat
  m_orig_height : Nat
  m_width : Nat
  m_height : Nat
  m_num_blocks_x : Nat
  m_num_blocks_y : Nat
  m_total_blocks : Nat
  m_compressed_size : Nat
  m_slice_index : Nat
  m_image_index : Nat
  m_level_index : Nat
  m_unpacked_slice_crc16 : Nat
  m_alpha_flag : Bool
  m_iframe_flag : Bool
deriving DecidableEq, Repr

/-- Source: `struct basisu_image_info`. -/
structure basisu_image_info where
  m_image_index : Nat
  m_total_levels : Nat
  m_orig_width : Nat
  m_orig_height : Nat
  m_width : Nat
  m_height : Nat
  m_num_blocks_x : Nat
  m_num_blocks_y : Nat
  m_total_blocks : Nat
  m_first_slice_index : Nat
  m_alpha_flag : Bool
  m_iframe_flag : Bool
deriving DecidableEq, Repr

/-- Source: `struct basisu_image_level_info`. -/
structure basisu_image_level_info where
  m_image_index : Nat
  m_level_index : Nat
  m_orig_width : Nat
  m_orig_height : Nat
  m_width : Nat
  m_height : Nat
  m_num_blocks_x : Nat
  m_num_blocks_y : Nat
  m_total_blocks : Nat
  m_first_slice_index : Nat
  m_alpha_flag : Bool
  m_iframe_flag : Bool
deriving DecidableEq, Repr

/-- Source: `struct basisu_file_info`; a `std::vector` is the list of its elements. -/
structure basisu_file_info where
  m_version : Nat
  m_total_header_size : Nat
  m_total_selectors : Nat
  m_selector_codebook_size : Nat
  m_total_endpoints : Nat
  m_endpoint_codebook_size : Nat
  m_tables_size : Nat
  m_slices_size : Nat
  m_tex_type : basis_texture_type
  m_us_per_frame : Nat
  m_slice_info : List basisu_slice_info
  m_total_images : Nat
  m_image_mipmap_levels : List Nat
  m_userdata0 : Nat
  m_userdata1 : Nat
  m_tex_format : basis_tex_format
  m_y_flipped : Bool
  m_etc1s : Bool
  m_has_alpha_slices : Bool
deriving DecidableEq, Repr

/-- Source: `struct basisrs_vector_u32`. `values` is a pointer to the first of `size`
elements; it is modelled by the elements readable through it, in order. -/
structure basisrs_vector_u32 where
  values : List Nat
  size : Nat
deriving DecidableEq, Repr

/-- Source: `struct basisrs_vector_slice_info`, modelled as `basisrs_vector_u32` is. -/
structure basisrs_vector_slice_info where
  values : List basisu_slice_info
  size : Nat
deriving DecidableEq, Repr

/-- Source: `basisrs_file_info_get_mipmap_levels(const basisu_file_info *data)`: the view
returned, and `*data` after the call. -/
def basisrs_file_info_get_mipmap_levels (data : basisu_file_info) :
    basisrs_vector_u32 × basisu_file_info :=
  ({ values := data.m_image_mipmap_levels, size := data.m_image_mipmap_levels.length }, data)

/-- Source: `basisrs_file_info_get_slice_info(const basisu_file_info *data)`: the view
returned, and `*data` after the call. -/
def basisrs_file_info_get_slice_info (data : basisu_file_info) :
    basisrs_vector_slice_info × basisu_file_info :=
  ({ values := data.m_slice_info, size := data.m_slice_info.length }, data)

/-! ## The wrapped transcoder class and the entry points that delegate to it -/

/-- The methods of the wrapped class `basist::basisu_transcoder` that the shim calls, over
the state `T` of a transcoder object and the type `S` of `basisu_transcoder_state`.
A `const` method returns its result only; `start_transcoding` and `stop_transcoding` also
return the object after the call. A parameter passed by reference is passed as its
current value and returned as its value after the call; memory written through an output
pointer is returned likewise. -/
structure basisu_transcoder (T S : Type) where
  validate_file_checksums : T → VoidPtr → Nat → Bool → Bool
  validate_header : T → VoidPtr → Nat → Bool
  get_texture_type : T → VoidPtr → Nat → basis_texture_type
  get_userdata : T → VoidPtr → Nat → Nat → Nat → Bool × Nat × Nat
  get_total_images : T → VoidPtr → Nat → Nat
  get_tex_format : T → VoidPtr → Nat → basis_tex_format
  get_total_image_levels : T → VoidPtr → Nat → Nat → Nat
  get_image_level_desc : T → VoidPtr → Nat → Nat → Nat → Nat → Nat → Nat → Bool × Nat × Nat × Nat
  start_transcoding : T → VoidPtr → Nat → Bool × T
  stop_transcoding : T → Bool × T
  get_ready_to_transcode : T → Bool
  find_slice : T → VoidPtr → Nat → Nat → Nat → Bool → Int
  transcode_slice : T → VoidPtr → Nat → Nat → VoidPtr → Nat → block_format → Nat → Nat → Nat →
    Option S → VoidPtr → Nat → Int → Int → Bool × VoidPtr × Option S × VoidPtr
  transcode_image_level : T → VoidPtr → Nat → Nat → Nat → VoidPtr → Nat →
    transcoder_texture_format → Nat → Nat → Option S → Nat → Bool × VoidPtr × Option S
  get_file_info : T → VoidPtr → Nat → basisu_file_info → Bool × basisu_file_info
  get_image_info : T → VoidPtr → Nat → basisu_image_info → Nat → Bool × basisu_image_info
  get_image_level_info : T → VoidPtr → Nat → basisu_image_level_info → Nat → Nat →
    Bool × basisu_image_level_info

/-- Source: `basisrs_validate_file_checksums`. -/
def basisrs_validate_file_checksums {T S : Type} (cls : basisu_transcoder T S)
    (me : T) (pData : VoidPtr) (data_size : Nat)
    (full_validation : Bool) : Bool :=
  cls.validate_file_checksums me pData data_size full_validation

/-- Source: `basisrs_validate_header`. -/
def basisrs_validate_header {T S : Type} (cls : basisu_transcoder T S)
    (me : T) (pData : VoidPtr) (data_size : Nat) : Bool :=
  cls.validate_header me pData data_size

/-- Source: `basisrs_get_texture_type`. -/
def basisrs_get_texture_type {T S : Type} (cls : basisu_transcoder T S)
    (me : T) (pData : VoidPtr) (data_size : Nat) : basis_texture_type :=
  cls.get_texture_type me pData data_size

/-- Source: `basisrs_get_userdata`; returns the result, `userdata0` and `userdata1`. -/
def basisrs_get_userdata {T S : Type} (cls : basisu_transcoder T S)
    (me : T) (pData : VoidPtr) (data_size : Nat) (userdata0 : Nat)
    (userdata1 : Nat) : Bool × Nat × Nat :=
  cls.get_userdata me pData data_size userdata0 userdata1

/-- Source: `basisrs_get_total_images`. -/
def basisrs_get_total_images {T S : Type} (cls : basisu_transcoder T S)
    (me : T) (pData : VoidPtr) (data_size : Nat) : Nat :=
  cls.get_total_images me pData data_size

/-- Source: `basisrs_get_tex_format`. -/
def basisrs_get_tex_format {T S : Type} (cls : basisu_transcoder T S)
    (me : T) (pData : VoidPtr) (data_size : Nat) : basis_tex_format :=
  cls.get_tex_format me pData data_size

/-- Source: `basisrs_get_total_image_levels`. -/
def basisrs_get_total_image_levels {T S : Type} (cls : basisu_transcoder T S)
    (me : T) (pData : VoidPtr) (data_size : Nat)
    (image_index : Nat) : Nat :=
  cls.get_total_image_levels me pData data_size image_index

/-- Source: `basisrs_get_image_level_desc`; returns the result, `orig_width`, `orig_height`
and `total_blocks`. -/
def basisrs_get_image_level_desc {T S : Type} (cls : basisu_transcoder T S)
    (me : T) (pData : VoidPtr) (data_size : Nat)
    (image_index : Nat) (level_index : Nat) (orig_width : Nat) (orig_height : Nat)
    (total_blocks : Nat) : Bool × Nat × Nat × Nat :=
  cls.get_image_level_desc me pData data_size image_index level_index orig_width orig_height
    total_blocks

/-- Source: `basisrs_start_transcoding`; returns the result and `*me` after the call. -/
def basisrs_start_transcoding {T S : Type} (cls : basisu_transcoder T S)
    (me : T) (pData : VoidPtr) (data_size : Nat) : Bool × T :=
  cls.start_transcoding me pData data_size

/-- Source: `basisrs_stop_transcoding`; returns the result and `*me` after the call. -/
def basisrs_stop_transcoding {T S : Type} (cls : basisu_transcoder T S)
    (me : T) : Bool × T :=
  cls.stop_transcoding me

/-- Source: `basisrs_get_ready_to_transcode`. -/
def basisrs_get_ready_to_transcode {T S : Type} (cls : basisu_transcoder T S)
    (me : T) : Bool :=
  cls.get_ready_to_transcode me

/-- Source: `basisrs_find_slice`. -/
def basisrs_find_slice {T S : Type} (cls : basisu_transcoder T S)
    (me : T) (pData : VoidPtr) (data_size : Nat) (image_index : Nat)
    (level_index : Nat) (alpha_data : Bool) : Int :=
  cls.find_slice me pData data_size image_index level_index alpha_data

/-- Source: `basisrs_transcode_slice`; returns the result and the memory behind
`pOutput_blocks`, `pState` and `pAlpha_blocks` after the call. -/
def basisrs_transcode_slice {T S : Type} (cls : basisu_transcoder T S)
    (me : T) (pData : VoidPtr) (data_size : Nat) (slice_index : Nat)
    (pOutput_blocks : VoidPtr) (output_blocks_buf_size_in_blocks_or_pixels : Nat)
    (fmt : block_format) (output_block_stride_in_bytes : Nat) (decode_flags : Nat)
    (output_row_pitch_in_blocks_or_pixels : Nat) (pState : Option S) (pAlpha_blocks : VoidPtr)
    (output_rows_in_pixels : Nat) (channel0 : Int) (channel1 : Int) :
    Bool × VoidPtr × Option S × VoidPtr :=
  cls.transcode_slice me pData data_size slice_index pOutput_blocks
    output_blocks_buf_size_in_blocks_or_pixels fmt output_block_stride_in_bytes
    decode_flags output_row_pitch_in_blocks_or_pixels pState pAlpha_blocks
    output_rows_in_pixels channel0 channel1

/-- Source: `basisrs_transcode_image_level`; returns the result and the memory behind
`pOutput_blocks` and `pState` after the call. -/
def basisrs_transcode_image_level {T S : Type} (cls : basisu_transcoder T S)
    (me : T) (pData : VoidPtr) (data_size : Nat)
    (image_index : Nat) (level_index : Nat) (pOutput_blocks : VoidPtr)
    (output_blocks_buf_size_in_blocks_or_pixels : Nat) (fmt : transcoder_texture_format)
    (decode_flags : Nat) (output_row_pitch_in_blocks_or_pixels : Nat) (pState : Option S)
    (output_rows_in_pixels : Nat) : Bool × VoidPtr × Option S :=
  cls.transcode_image_level me pData data_size image_index level_index pOutput_blocks
    output_blocks_buf_size_in_blocks_or_pixels fmt decode_flags
    output_row_pitch_in_blocks_or_pixels pState output_rows_in_pixels

/-- Source: `basisrs_get_file_info`; returns the result and `file_info`. -/
def basisrs_get_file_info {T S : Type} (cls : basisu_transcoder T S)
    (me : T) (pData : VoidPtr) (data_size : Nat)
    (file_info : basisu_file_info) : Bool × basisu_file_info :=
  cls.get_file_info me pData data_size file_info

/-- Source: `basisrs_get_image_info`; returns the result and `image_info`. -/
def basisrs_get_image_info {T S : Type} (cls : basisu_transcoder T S)
    (me : T) (pData : VoidPtr) (data_size : Nat)
    (image_info : basisu_image_info) (image_index : Nat) : Bool × basisu_image_info :=
  cls.get_image_info me pData data_size image_info image_index

/-- Source: `basisrs_get_image_level_info`; returns the result and `level_info`. -/
def basisrs_get_image_level_info {T S : Type} (cls : basisu_transcoder T S)
    (me : T) (pData : VoidPtr) (data_size : Nat)
    (level_info : basisu_image_level_info) (image_index : Nat) (level_index : Nat) :
    Bool × basisu_image_level_info :=
  cls.get_image_level_info me pData data_size level_info image_index level_index

/-- The entry points that take a transcoder, each with the arguments of one call. -/
inductive SessionCall (S : Type) where
  | validate_file_checksums (pData : VoidPtr) (data_size : Nat) (full_validation : Bool)
  | validate_header (pData : VoidPtr) (data_size : Nat)
  | get_texture_type (pData : VoidPtr) (data_size : Nat)
  | get_userdata (pData : VoidPtr) (data_size : Nat) (userdata0 : Nat) (userdata1 : Nat)
  | get_total_images (pData : VoidPtr) (data_size : Nat)
  | get_tex_format (pData : VoidPtr) (data_size : Nat)
  | get_total_image_levels (pData : VoidPtr) (data_size : Nat) (image_index : Nat)
  | get_image_level_desc (pData : VoidPtr) (data_size : Nat) (image_index : Nat)
      (level_index : Nat) (orig_width : Nat) (orig_height : Nat) (total_blocks : Nat)
  | start_transcoding (pData : VoidPtr) (data_size : Nat)
  | stop_transcoding
  | get_ready_to_transcode
  | find_slice (pData : VoidPtr) (data_size : Nat) (image_index : Nat) (level_index : Nat)
      (alpha_data : Bool)
  | transcode_slice (pData : VoidPtr) (data_size : Nat) (slice_index : Nat)
      (pOutput_blocks : VoidPtr) (output_blocks_buf_size_in_blocks_or_pixels : Nat)
      (fmt : block_format) (output_block_stride_in_bytes : Nat) (decode_flags : Nat)
      (output_row_pitch_in_blocks_or_pixels : Nat) (pState : Option S)
      (pAlpha_blocks : VoidPtr) (output_rows_in_pixels : Nat) (channel0 : Int) (channel1 : Int)
  | transcode_image_level (pData : VoidPtr) (data_size : Nat) (image_index : Nat)
      (level_index : Nat) (pOutput_blocks : VoidPtr)
      (output_blocks_buf_size_in_blocks_or_pixels : Nat) (fmt : transcoder_texture_format)
      (decode_flags : Nat) (output_row_pitch_in_blocks_or_pixels : Nat) (pState : Option S)
      (output_rows_in_pixels : Nat)
  | get_file_info (pData : VoidPtr) (data_size : Nat) (file_info : basisu_file_info)
  | get_image_info (pData : VoidPtr) (data_size : Nat) (image_info : basisu_image_info)
      (image_index : Nat)
  | get_image_level_info (pData : VoidPtr) (data_size : Nat)
      (level_info : basisu_image_level_info) (image_index : Nat) (level_index : Nat)

/-- Whether the call is `basisrs_stop_transcoding`. -/
def SessionCall.isStop {S : Type} : SessionCall S → Bool
  | .stop_transcoding => true
  | _ => false

/-- Whether the entry point takes its transcoder as `const basisu_transcoder *`: every one
but `basisrs_start_transcoding` and `basisrs_stop_transcoding`. -/
def SessionCall.isConst {S : Type} : SessionCall S → Bool
  | .start_transcoding _ _ => false
  | .stop_transcoding => false
  | _ => true

/-- The transcoder object after one call on it. Only `basisrs_start_transcoding` and
`basisrs_stop_transcoding` receive a non-`const` transcoder. -/
def sessionStep {T S : Type} (cls : basisu_transcoder T S) (c : SessionCall S) (me : T) : T :=
  match c with
  | .start_transcoding pData data_size => (basisrs_start_transcoding cls me pData data_size).2
  | .stop_transcoding => (basisrs_stop_transcoding cls me).2
  | _ => me

/-- The transcoder object after a sequence of calls on it, first call first. -/
def runSession {T S : Type} (cls : basisu_transcoder T S) (cs : List (SessionCall S)) (me : T) :
    T :=
  cs.foldl (fun st c => sessionStep cls c st) me

/-! ## The wrapped transcoder, from the design document

The class `basist::basisu_transcoder` is declared in
`basis-sys/basisu/transcoder/basisu_transcoder.h`, which is not among the embedded sources.
What a claim says about the answers of its methods is settled against the design
document's description of them. -/

/-- Modelled from the spec: the session states of section 4.3, `Uninitialized`,
`CodebooksReady` and `Stopped`, of the wrapped class `basist::basisu_transcoder`, whose
source is missing. `CodebooksReady` records the container (buffer and length) whose
codebooks were decompressed. -/
inductive SessionState where
  | Uninitialized
  | CodebooksReady (pData : VoidPtr) (data_size : Nat)
  | Stopped
deriving DecidableEq, Repr

/-- Modelled from the spec: what the design document leaves to the container's wire format
and to the block encoders, both missing from the sources (sections 1 and 9): `parse` is the
Container Parser of section 4.1 (`none` is a parse error), `decompress_codebooks` tells
whether decompressing a container's codebooks succeeds (section 4.3), and `stateless`
answers the remaining queries and does the block encoding, as functions of the call's
arguments alone. -/
structure SpecOpen (S : Type) where
  parse : VoidPtr → Nat → Option basisu_file_info
  decompress_codebooks : VoidPtr → Nat → Bool
  stateless : basisu_transcoder Unit S

/-- Modelled from the spec: `is_ready()` of section 4.3 (the missing
`basisu_transcoder::get_ready_to_transcode`), true only in `CodebooksReady`. -/
def spec_is_ready : SessionState → Bool
  | .CodebooksReady _ _ => true
  | _ => false

/-- Modelled from the spec: `start_transcoding(container)` of section 4.3 (the missing
`basisu_transcoder::start_transcoding`). While `CodebooksReady` it is a no-op for the same
container and fails (`AlreadyStarted`) for a different one; otherwise it decompresses the
codebooks and becomes `CodebooksReady`, or fails (`CorruptCodebook`) and stays as it is. -/
def spec_start_transcoding {S : Type} (P : SpecOpen S) (me : SessionState) (pData : VoidPtr)
    (data_size : Nat) : Bool × SessionState :=
  match me with
  | .CodebooksReady p n =>
    if p = pData ∧ n = data_size then (true, me) else (false, me)
  | _ =>
    if P.decompress_codebooks pData data_size then
      (true, SessionState.CodebooksReady pData data_size)
    else (false, me)

/-- Modelled from the spec: `stop_transcoding()` of section 4.3 (the missing
`basisu_transcoder::stop_transcoding`): from `CodebooksReady` to `Stopped`; always
succeeds. -/
def spec_stop_transcoding (me : SessionState) : Bool × SessionState :=
  match me with
  | .CodebooksReady _ _ => (true, SessionState.Stopped)
  | _ => (true, me)

/-- Modelled from the spec: the Slice Descriptor sequence of a container (section 3), empty
when the buffer does not parse; the container parser is missing from the sources. -/
def container_slices {S : Type} (P : SpecOpen S) (pData : VoidPtr) (data_size : Nat) :
    List basisu_slice_info :=
  match P.parse pData data_size with
  | some f => f.m_slice_info
  | none => []

/-- Modelled from the spec: the filter of the Slice Locator of section 4.4, by image index,
level index and alpha flag; the locator is missing from the sources. -/
def slice_matches (image_index : Nat) (level_index : Nat) (alpha_data : Bool)
    (d : basisu_slice_info) : Bool :=
  d.m_image_index == image_index && d.m_level_index == level_index &&
    d.m_alpha_flag == alpha_data

/-- Modelled from the spec: the linear lookup of section 4.4 over the missing slice table,
under the first match policy: the index of the first descriptor satisfying `q`, counting
from `k`. -/
def first_match (q : basisu_slice_info → Bool) : List basisu_slice_info → Nat → Option Nat
  | [], _ => none
  | d :: rest, k => if q d then some k else first_match q rest (k + 1)

/-- Modelled from the spec: `find_slice` of section 4.4 (the missing
`basisu_transcoder::find_slice`): the index of the first matching slice, or the sentinel -1
the header documents when there is none. -/
def spec_find_slice {S : Type} (P : SpecOpen S) (pData : VoidPtr) (data_size : Nat)
    (image_index : Nat) (level_index : Nat) (alpha_data : Bool) : Int :=
  match first_match (slice_matches image_index level_index alpha_data)
      (container_slices P pData data_size) 0 with
  | some k => (k : Int)
  | none => -1

/-- Modelled from the spec: the wrapped class `basist::basisu_transcoder`, whose source is
missing, as sections 4.3 to 4.5 describe it. The session state machine and the slice
locator are as above; every transcode operation requires `CodebooksReady` and otherwise
fails (`NotStarted`) without writing; the queries do not depend on the session. -/
def spec_transcoder {S : Type} (P : SpecOpen S) : basisu_transcoder SessionState S where
  validate_file_checksums := fun _ p n full => P.stateless.validate_file_checksums () p n full
  validate_header := fun _ p n => P.stateless.validate_header () p n
  get_texture_type := fun _ p n => P.stateless.get_texture_type () p n
  get_userdata := fun _ p n u0 u1 => P.stateless.get_userdata () p n u0 u1
  get_total_images := fun _ p n => P.stateless.get_total_images () p n
  get_tex_format := fun _ p n => P.stateless.get_tex_format () p n
  get_total_image_levels := fun _ p n i => P.stateless.get_total_image_levels () p n i
  get_image_level_desc := fun _ p n i l w h b =>
    P.stateless.get_image_level_desc () p n i l w h b
  start_transcoding := spec_start_transcoding P
  stop_transcoding := spec_stop_transcoding
  get_ready_to_transcode := spec_is_ready
  find_slice := fun _ p n i l a => spec_find_slice P p n i l a
  transcode_slice := fun me p n i out sz fmt stride flags pitch st alpha rows c0 c1 =>
    if spec_is_ready me then
      P.stateless.transcode_slice () p n i out sz fmt stride flags pitch st alpha rows c0 c1
    else (false, out, st, alpha)
  transcode_image_level := fun me p n i l out sz fmt flags pitch st rows =>
    if spec_is_ready me then
      P.stateless.transcode_image_level () p n i l out sz fmt flags pitch st rows
    else (false, out, st)
  get_file_info := fun _ p n fi => P.stateless.get_file_info () p n fi
  get_image_info := fun _ p n ii i => P.stateless.get_image_info () p n ii i
  get_image_level_info := fun _ p n li i l => P.stateless.get_image_level_info () p n li i l

/-! ## Concrete inputs for the instances below -/

/-- A transcoder without session state that accepts every call: each query succeeds, with
an answer that shows which argument it received in which position, and each transcode call
returns `true`, leaving its outputs as they are. -/
def accepting : basisu_transcoder Unit Unit where
  validate_file_checksums := fun _ _ _ full => full
  validate_header := fun _ p _ => p.isSome
  get_texture_type := fun _ _ n => (n : Int)
  get_userdata := fun _ _ n u0 u1 => (true, u0 + n, u1)
  get_total_images := fun _ _ n => n
  get_tex_format := fun _ _ n => (n : Int)
  get_total_image_levels := fun _ _ n i => 10 * n + i
  get_image_level_desc := fun _ _ n i l w h b => (true, 10 * w + i, 10 * h + l, 10 * b + n)
  start_transcoding := fun _ _ _ => (true, ())
  stop_transcoding := fun _ => (true, ())
  get_ready_to_transcode := fun _ => true
  find_slice := fun _ _ _ _ _ _ => -1
  transcode_slice := fun _ _ _ _ out _ _ _ _ _ st alpha _ _ _ => (true, out, st, alpha)
  transcode_image_level := fun _ _ _ _ _ out _ _ _ _ st _ => (true, out, st)
  get_file_info := fun _ _ n fi => (true, { fi with m_version := n })
  get_image_info := fun _ _ _ ii i => (true, { ii with m_image_index := i })
  get_image_level_info := fun _ _ _ li i l =>
    (true, { li with m_image_index := i, m_level_index := l })

/-- A level description with every field zero. -/
def blank_level_info : basisu_image_level_info :=
  { m_image_index := 0, m_level_index := 0, m_orig_width := 0, m_orig_height := 0,
    m_width := 0, m_height := 0, m_num_blocks_x := 0, m_num_blocks_y := 0,
    m_total_blocks := 0, m_first_slice_index := 0, m_alpha_flag := false,
    m_iframe_flag := false }

/-- A slice descriptor of one 4x4 block for the given slice, image and level. -/
def sample_slice (slice_index : Nat) (image_index : Nat) (level_index : Nat) (alpha : Bool) :
    basisu_slice_info :=
  { m_orig_width := 4, m_orig_height := 4, m_width := 4, m_height := 4, m_num_blocks_x := 1,
    m_num_blocks_y := 1, m_total_blocks := 1, m_compressed_size := 8,
    m_slice_index := slice_index, m_image_index := image_index, m_level_index := level_index,
    m_unpacked_slice_crc16 := 0, m_alpha_flag := alpha, m_iframe_flag := false }

/-- A file description of one image with two mipmap levels, each with a colour slice and
an alpha slice. -/
def sample_file_info : basisu_file_info :=
  { m_version := 19, m_total_header_size := 77, m_total_selectors := 1,
    m_selector_codebook_size := 1, m_total_endpoints := 1, m_endpoint_codebook_size := 1,
    m_tables_size := 1, m_slices_size := 32, m_tex_type := 0, m_us_per_frame := 0,
    m_slice_info := [sample_slice 0 0 0 false, sample_slice 1 0 0 true,
      sample_slice 2 0 1 false, sample_slice 3 0 1 true],
    m_total_images := 1, m_image_mipmap_levels := [2], m_userdata0 := 0, m_userdata1 := 0,
    m_tex_format := 0, m_y_flipped := false, m_etc1s := true, m_has_alpha_slices := true }

/-- A container format in which every non-null buffer holds `sample_file_info` and every
codebook decompresses. -/
def sample_open : SpecOpen Unit :=
  { parse := fun p _ => p.map (fun _ => sample_file_info),
    decompress_codebooks := fun _ _ => true,
    stateless := accepting }

/-! ## The enumerations of `basisrs_interface.hpp`, as declared -/

/-- How an enumerator of a C++ enumeration is given its value: by no initialiser, by an
integer literal, or by the name of an enumerator declared before it. -/
inductive EnumInit where
  | implicit
  | lit (v : Int)
  | same_as (name : String)
deriving DecidableEq, Repr

/-- One enumerator of an enumeration, as written in the header. -/
structure Enumerator where
  name : String
  init : EnumInit
deriving DecidableEq, Repr

/-- The value of the enumerator `name` among the enumerators already numbered. -/
def lookup_enumerator (name : String) : List (String × Int) → Option Int
  | [] => none
  | e :: rest => if e.1 = name then some e.2 else lookup_enumerator name rest

/-- The C++ numbering of the enumerators of a declaration: an enumerator without an
initialiser is one more than the enumerator before it (0 for the first), and one with an
initialiser has the initialiser's value. `next` is the value an enumerator without an
initialiser gets, `done` the enumerators numbered so far, last first; `none` when an
initialiser names an enumerator that has not been declared. -/
def enumerate_from : List Enumerator → Int → List (String × Int) → Option (List (String × Int))
  | [], _, done => some done.reverse
  | e :: rest, next, done =>
    match e.init with
    | .implicit => enumerate_from rest (next + 1) ((e.name, next) :: done)
    | .lit v => enumerate_from rest (v + 1) ((e.name, v) :: done)
    | .same_as n =>
      match lookup_enumerator n done with
      | some v => enumerate_from rest (v + 1) ((e.name, v) :: done)
      | none => none

/-- The enumerators of a declaration with their values, in declaration order. -/
def enumerate (decl : List Enumerator) : Option (List (String × Int)) :=
  enumerate_from decl 0 []

/-- The value of the enumerator `name` of a declaration. -/
def enum_value (decl : List Enumerator) (name : String) : Option Int :=
  match enumerate decl with
  | some vs => lookup_enumerator name vs
  | none => none

/-- The enumerators a declaration defines from another enumerator, each with the enumerator
it is defined from. -/
def alias_pairs : List Enumerator → List (String × String)
  | [] => []
  | e :: rest =>
    match e.init with
    | .same_as n => (e.name, n) :: alias_pairs rest
    | _ => alias_pairs rest

/-- The names of the enumerators of a declaration that are not defined from another
enumerator, the enumerator `total` left out. -/
def proper_enumerators (total : String) : List Enumerator → List String
  | [] => []
  | e :: rest =>
    match e.init with
    | .same_as _ => proper_enumerators total rest
    | _ => if e.name = total then proper_enumerators total rest
           else e.name :: proper_enumerators total rest

/-- The values of the listed enumerators of a declaration; `none` when one of them has no
value. -/
def enum_values (decl : List Enumerator) (names : List String) : Option (List Int) :=
  names.mapM (enum_value decl)

/-- Source: the enumerators of `enum class block_format`, in order; none has an
initialiser. -/
def block_format_decl : List Enumerator :=
  [ { name := "cETC1", init := .implicit },
    { name := "cETC2_RGBA", init := .implicit },
    { name := "cBC1", init := .implicit },
    { name := "cBC3", init := .implicit },
    { name := "cBC4", init := .implicit },
    { name := "cBC5", init := .implicit },
    { name := "cPVRTC1_4_RGB", init := .implicit },
    { name := "cPVRTC1_4_RGBA", init := .implicit },
    { name := "cBC7", init := .implicit },
    { name := "cBC7_M5_COLOR", init := .implicit },
    { name := "cBC7_M5_ALPHA", init := .implicit },
    { name := "cETC2_EAC_A8", init := .implicit },
    { name := "cASTC_4x4", init := .implicit },
    { name := "cATC_RGB", init := .implicit },
    { name := "cATC_RGBA_INTERPOLATED_ALPHA", init := .implicit },
    { name := "cFXT1_RGB", init := .implicit },
    { name := "cPVRTC2_4_RGB", init := .implicit },
    { name := "cPVRTC2_4_RGBA", init := .implicit },
    { name := "cETC2_EAC_R11", init := .implicit },
    { name := "cETC2_EAC_RG11", init := .implicit },
    { name := "cIndices", init := .implicit },
    { name := "cRGB32", init := .implicit },
    { name := "cRGBA32", init := .implicit },
    { name := "cA32", init := .implicit },
    { name := "cRGB565", init := .implicit },
    { name := "cBGR565", init := .implicit },
    { name := "cRGBA4444_COLOR", init := .implicit },
    { name := "cRGBA4444_ALPHA", init := .implicit },
    { name := "cRGBA4444_COLOR_OPAQUE", init := .implicit },
    { name := "cRGBA4444", init := .implicit },
    { name := "cTotalBlockFormats", init := .implicit } ]

/-- Source: the enumerators of `enum class transcoder_texture_format`, in order, each with
its initialiser. -/
def transcoder_texture_format_decl : List Enumerator :=
  [ { name := "cTFETC1_RGB", init := .lit 0 },
    { name := "cTFETC2_RGBA", init := .lit 1 },
    { name := "cTFBC1_RGB", init := .lit 2 },
    { name := "cTFBC3_RGBA", init := .lit 3 },
    { name := "cTFBC4_R", init := .lit 4 },
    { name := "cTFBC5_RG", init := .lit 5 },
    { name := "cTFBC7_RGBA", init := .lit 6 },
    { name := "cTFPVRTC1_4_RGB", init := .lit 8 },
    { name := "cTFPVRTC1_4_RGBA", init := .lit 9 },
    { name := "cTFASTC_4x4_RGBA", init := .lit 10 },
    { name := "cTFATC_RGB", init := .lit 11 },
    { name := "cTFATC_RGBA", init := .lit 12 },
    { name := "cTFFXT1_RGB", init := .lit 17 },
    { name := "cTFPVRTC2_4_RGB", init := .lit 18 },
    { name := "cTFPVRTC2_4_RGBA", init := .lit 19 },
    { name := "cTFETC2_EAC_R11", init := .lit 20 },
    { name := "cTFETC2_EAC_RG11", init := .lit 21 },
    { name := "cTFRGBA32", init := .lit 13 },
    { name := "cTFRGB565", init := .lit 14 },
    { name := "cTFBGR565", init := .lit 15 },
    { name := "cTFRGBA4444", init := .lit 16 },
    { name := "cTFTotalTextureFormats", init := .lit 22 },
    { name := "cTFETC1", init := .same_as "cTFETC1_RGB" },
    { name := "cTFETC2", init := .same_as "cTFETC2_RGBA" },
    { name := "cTFBC1", init := .same_as "cTFBC1_RGB" },
    { name := "cTFBC3", init := .same_as "cTFBC3_RGBA" },
    { name := "cTFBC4", init := .same_as "cTFBC4_R" },
    { name := "cTFBC5", init := .same_as "cTFBC5_RG" },
    { name := "cTFBC7_M6_RGB", init := .same_as "cTFBC7_RGBA" },
    { name := "cTFBC7_M5_RGBA", init := .same_as "cTFBC7_RGBA" },
    { name := "cTFBC7_M6_OPAQUE_ONLY", init := .same_as "cTFBC7_RGBA" },
    { name := "cTFBC7_M5", init := .same_as "cTFBC7_RGBA" },
    { name := "cTFBC7_ALT", init := .lit 7 },
    { name := "cTFASTC_4x4", init := .same_as "cTFASTC_4x4_RGBA" },
    { name := "cTFATC_RGBA_INTERPOLATED_ALPHA", init := .same_as "cTFATC_RGBA" } ]

/-! ## The functions of the interface, as declared and as defined -/

/-- The C++ types that occur in the interface. -/
inductive CType where
  | void
  | bool
  | int
  | uint32_t
  | named (n : String)
  | const (t : CType)
  | ptr (t : CType)
  | ref (t : CType)
deriving DecidableEq, Repr

/-- A default argument of a declaration: an integer literal or `nullptr`. -/
inductive CDefault where
  | int (v : Int)
  | nullptr
deriving DecidableEq, Repr

/-- One parameter of a function: its type, its name and its default argument if any. -/
structure CParam where
  ty : CType
  name : String
  dflt : Option CDefault
deriving DecidableEq, Repr

/-- A function as the header declares it or as the `.cpp` file defines it. -/
structure CFunction where
  ret : CType
  name : String
  params : List CParam
deriving DecidableEq, Repr

/-- A parameter without a default argument. -/
def param (ty : CType) (name : String) : CParam :=
  { ty := ty, name := name, dflt := none }

/-- A parameter with a default argument. -/
def param_with (ty : CType) (name : String) (d : CDefault) : CParam :=
  { ty := ty, name := name, dflt := some d }

/-- The parameter `const basisu_transcoder *me`. -/
def const_me : CParam := param (.ptr (.const (.named "basisu_transcoder"))) "me"

/-- The parameter `basisu_transcoder *me`. -/
def mutable_me : CParam := param (.ptr (.named "basisu_transcoder")) "me"

/-- The parameter `const void *pData`. -/
def pData_param : CParam := param (.ptr (.const .void)) "pData"

/-- The parameter `uint32_t data_size`. -/
def data_size_param : CParam := param .uint32_t "data_size"

/-- Source: the functions declared in the `extern "C"` block of `basisrs_interface.hpp`, in
order. -/
def header_decls : List CFunction :=
  [ { ret := .void, name := "basisrs_init", params := [] },
    { ret := .void, name := "basisrs_deinit", params := [] },
    { ret := .named "basisrs_vector_u32", name := "basisrs_file_info_get_mipmap_levels",
      params := [param (.ptr (.const (.named "basisu_file_info"))) "data"] },
    { ret := .named "basisrs_vector_slice_info", name := "basisrs_file_info_get_slice_info",
      params := [param (.ptr (.const (.named "basisu_file_info"))) "data"] },
    { ret := .ptr (.named "basisu_transcoder"), name := "basisrs_create_transcoder",
      params := [] },
    { ret := .void, name := "basisrs_destroy_transcoder", params := [mutable_me] },
    { ret := .bool, name := "basisrs_validate_file_checksums",
      params := [const_me, pData_param, data_size_param, param .bool "full_validation"] },
    { ret := .bool, name := "basisrs_validate_header",
      params := [const_me, pData_param, data_size_param] },
    { ret := .named "basis_texture_type", name := "get_texture_type",
      params := [const_me, pData_param, data_size_param] },
    { ret := .bool, name := "basisrs_get_userdata",
      params := [const_me, pData_param, data_size_param, param (.ref .uint32_t) "userdata0",
        param (.ref .uint32_t) "userdata1"] },
    { ret := .uint32_t, name := "basisrs_get_total_images",
      params := [const_me, pData_param, data_size_param] },
    { ret := .named "basis_tex_format", name := "basisrs_get_tex_format",
      params := [const_me, pData_param, data_size_param] },
    { ret := .uint32_t, name := "basisrs_get_total_image_levels",
      params := [const_me, pData_param, data_size_param, param .uint32_t "image_index"] },
    { ret := .bool, name := "basisrs_get_image_level_desc",
      params := [const_me, pData_param, data_size_param, param .uint32_t "image_index",
        param .uint32_t "level_index", param (.ref .uint32_t) "orig_width",
        param (.ref .uint32_t) "orig_height", param (.ref .uint32_t) "total_blocks"] },
    { ret := .bool, name := "basisrs_get_image_info",
      params := [const_me, pData_param, data_size_param,
        param (.ref (.named "basisu_image_info")) "image_info",
        param .uint32_t "image_index"] },
    { ret := .bool, name := "basisrs_get_image_level_info",
      params := [const_me, pData_param, data_size_param,
        param (.ref (.named "basisu_image_level_info")) "level_info",
        param .uint32_t "image_index", param .uint32_t "level_index"] },
    { ret := .bool, name := "basisrs_get_file_info",
      params := [const_me, pData_param, data_size_param,
        param (.ref (.named "basisu_file_info")) "file_info"] },
    { ret := .bool, name := "basisrs_start_transcoding",
      params := [mutable_me, pData_param, data_size_param] },
    { ret := .bool, name := "basisrs_stop_transcoding", params := [mutable_me] },
    { ret := .bool, name := "basisrs_get_ready_to_transcode", params := [const_me] },
    { ret := .bool, name := "basisrs_transcode_image_level",
      params := [const_me, pData_param, data_size_param, param .uint32_t "image_index",
        param .uint32_t "level_index", param (.ptr .void) "pOutput_blocks",
        param .uint32_t "output_blocks_buf_size_in_blocks_or_pixels",
        param (.named "transcoder_texture_format") "fmt",
        param_with .uint32_t "decode_flags" (.int 0),
        param_with .uint32_t "output_row_pitch_in_blocks_or_pixels" (.int 0),
        param_with (.ptr (.named "basisu_transcoder_state")) "pState" .nullptr,
        param_with .uint32_t "output_rows_in_pixels" (.int 0)] },
    { ret := .int, name := "basisrs_find_slice",
      params := [const_me, pData_param, data_size_param, param .uint32_t "image_index",
        param .uint32_t "level_index", param .bool "alpha_data"] },
    { ret := .bool, name := "basisrs_transcode_slice",
      params := [const_me, pData_param, data_size_param, param .uint32_t "slice_index",
        param (.ptr .void) "pOutput_blocks",
        param .uint32_t "output_blocks_buf_size_in_blocks_or_pixels",
        param (.named "block_format") "fmt",
        param .uint32_t "output_block_stride_in_bytes",
        param_with .uint32_t "decode_flags" (.int 0),
        param_with .uint32_t "output_row_pitch_in_blocks_or_pixels" (.int 0),
        param_with (.ptr (.named "basisu_transcoder_state")) "pState" .nullptr,
        param_with (.ptr .void) "pAlpha_blocks" .nullptr,
        param_with .uint32_t "output_rows_in_pixels" (.int 0),
        param_with .int "channel0" (.int (-1)),
        param_with .int "channel1" (.int (-1))] } ]

/-- Source: the functions defined in the `extern "C"` block of `basisrs_interface.cpp`, in
order. -/
def cpp_defs : List CFunction :=
  [ { ret := .void, name := "basisrs_init", params := [] },
    { ret := .void, name := "basisrs_deinit", params := [] },
    { ret := .named "basisrs_vector_u32", name := "basisrs_file_info_get_mipmap_levels",
      params := [param (.ptr (.const (.named "basisu_file_info"))) "data"] },
    { ret := .named "basisrs_vector_slice_info", name := "basisrs_file_info_get_slice_info",
      params := [param (.ptr (.const (.named "basisu_file_info"))) "data"] },
    { ret := .ptr (.named "basisu_transcoder"), name := "basisrs_create_transcoder",
      params := [] },
    { ret := .void, name := "basisrs_destroy_transcoder", params := [mutable_me] },
    { ret := .bool, name := "basisrs_validate_file_checksums",
      params := [const_me, pData_param, data_size_param, param .bool "full_validation"] },
    { ret := .bool, name := "basisrs_validate_header",
      params := [const_me, pData_param, data_size_param] },
    { ret := .named "basis_texture_type", name := "basisrs_get_texture_type",
      params := [const_me, pData_param, data_size_param] },
    { ret := .bool, name := "basisrs_get_userdata",
      params := [const_me, pData_param, data_size_param, param (.ref .uint32_t) "userdata0",
        param (.ref .uint32_t) "userdata1"] },
    { ret := .uint32_t, name := "basisrs_get_total_images",
      params := [const_me, pData_param, data_size_param] },
    { ret := .named "basis_tex_format", name := "basisrs_get_tex_format",
      params := [const_me, pData_param, data_size_param] },
    { ret := .uint32_t, name := "basisrs_get_total_image_levels",
      params := [const_me, pData_param, data_size_param, param .uint32_t "image_index"] },
    { ret := .bool, name := "basisrs_get_image_level_desc",
      params := [const_me, pData_param, data_size_param, param .uint32_t "image_index",
        param .uint32_t "level_index", param (.ref .uint32_t) "orig_width",
        param (.ref .uint32_t) "orig_height", param (.ref .uint32_t) "total_blocks"] },
    { ret := .bool, name := "basisrs_start_transcoding",
      params := [mutable_me, pData_param, data_size_param] },
    { ret := .bool, name := "basisrs_stop_transcoding", params := [mutable_me] },
    { ret := .bool, name := "basisrs_get_ready_to_transcode", params := [const_me] },
    { ret := .int, name := "basisrs_find_slice",
      params := [const_me, pData_param, data_size_param, param .uint32_t "image_index",
        param .uint32_t "level_index", param .bool "alpha_data"] },
    { ret := .bool, name := "basisrs_transcode_slice",
      params := [const_me, pData_param, data_size_param, param .uint32_t "slice_index",
        param (.ptr .void) "pOutput_blocks",
        param .uint32_t "output_blocks_buf_size_in_blocks_or_pixels",
        param (.named "block_format") "fmt",
        param .uint32_t "output_block_stride_in_bytes",
        param .uint32_t "decode_flags",
        param .uint32_t "output_row_pitch_in_blocks_or_pixels",
        param (.ptr (.named "basisu_transcoder_state")) "pState",
        param (.ptr .void) "pAlpha_blocks",
        param .uint32_t "output_rows_in_pixels",
        param .int "channel0",
        param .int "channel1"] },
    { ret := .bool, name := "basisrs_transcode_image_level",
      params := [const_me, pData_param, data_size_param, param .uint32_t "image_index",
        param .uint32_t "level_index", param (.ptr .void) "pOutput_blocks",
        param .uint32_t "output_blocks_buf_size_in_blocks_or_pixels",
        param (.named "transcoder_texture_format") "fmt",
        param .uint32_t "decode_flags",
        param .uint32_t "output_row_pitch_in_blocks_or_pixels",
        param (.ptr (.named "basisu_transcoder_state")) "pState",
        param .uint32_t "output_rows_in_pixels"] },
    { ret := .bool, name := "basisrs_get_file_info",
      params := [const_me, pData_param, data_size_param,
        param (.ref (.named "basisu_file_info")) "file_info"] },
    { ret := .bool, name := "basisrs_get_image_info",
      params := [const_me, pData_param, data_size_param,
        param (.ref (.named "basisu_image_info")) "image_info",
        param .uint32_t "image_index"] },
    { ret := .bool, name := "basisrs_get_image_level_info",
      params := [const_me, pData_param, data_size_param,
        param (.ref (.named "basisu_image_level_info")) "level_info",
        param .uint32_t "image_index", param .uint32_t "level_index"] } ]

/-- The parameter list of a function without its default arguments: the type and name of
each parameter, in order. -/
def CFunction.parameter_list (f : CFunction) : List (CType × String) :=
  f.params.map (fun q => (q.ty, q.name))

/-- Whether a declaration and a definition are of the same function: same name, same
return type and same parameter list. -/
def same_function (d : CFunction) (f : CFunction) : Bool :=
  d.name == f.name && d.ret == f.ret && d.parameter_list == f.parameter_list

/-- Whether some function of `fs` has the name `n`. -/
def has_name (fs : List CFunction) (n : String) : Bool :=
  fs.any (fun f => f.name == n)

/-- The functions of `ds` that no function of `fs` matches in name, return type and
parameter list. -/
def unmatched (ds : List CFunction) (fs : List CFunction) : List CFunction :=
  ds.filter (fun d => !(fs.any (fun f => same_function d f)))

/-- The parameters of the function `n` of `fs` that have a default argument, each with its
default; `none` when `fs` has no function `n`. -/
def declared_defaults (fs : List CFunction) (n : String) : Option (List (String × CDefault)) :=
  (fs.find? (fun f => f.name == n)).map (fun f =>
    f.params.filterMap (fun q => q.dflt.map (fun d => (q.name, d))))

/-- Source: a call of `basisrs_transcode_slice` that passes its first eight arguments only;
the default arguments of the header's declaration stand for the other seven. -/
def basisrs_transcode_slice_defaulted {T S : Type} (cls : basisu_transcoder T S)
    (me : T) (pData : VoidPtr) (data_size : Nat) (slice_index : Nat)
    (pOutput_blocks : VoidPtr) (output_blocks_buf_size_in_blocks_or_pixels : Nat)
    (fmt : block_format) (output_block_stride_in_bytes : Nat) :
    Bool × VoidPtr × Option S × VoidPtr :=
  basisrs_transcode_slice cls me pData data_size slice_index pOutput_blocks
    output_blocks_buf_size_in_blocks_or_pixels fmt output_block_stride_in_bytes
    0 0 none none 0 (-1) (-1)

/-- Source: a call of `basisrs_transcode_image_level` that passes its first eight arguments
only; the default arguments of the header's declaration stand for the other four. -/
def basisrs_transcode_image_level_defaulted {T S : Type} (cls : basisu_transcoder T S)
    (me : T) (pData : VoidPtr) (data_size : Nat) (image_index : Nat) (level_index : Nat)
    (pOutput_blocks : VoidPtr) (output_blocks_buf_size_in_blocks_or_pixels : Nat)
    (fmt : transcoder_texture_format) : Bool × VoidPtr × Option S :=
  basisrs_transcode_image_level cls me pData data_size image_index level_index
    pOutput_blocks output_blocks_buf_size_in_blocks_or_pixels fmt 0 0 none 0

/-- A transcoder without session state whose transcode methods write the numeric
arguments they received, in parameter order, to the output blocks, and return whether the
format is 2. -/
def recording : basisu_transcoder Unit Unit :=
  { accepting with
    transcode_slice := fun _ _ n i _ sz fmt stride flags pitch st alpha rows c0 c1 =>
      (fmt == 2, some [n, i, sz, stride, flags, pitch, rows, c0.natAbs, c1.natAbs], st, alpha),
    transcode_image_level := fun _ _ n i l _ sz fmt flags pitch st rows =>
      (fmt == 2, some [n, i, l, sz, flags, pitch, rows], st) }

/-! ## Every entry point as a step of the process -/

/-- One call of an entry point of the shim, with its arguments; the entry points that take
a transcoder are those of `SessionCall`. -/
inductive EntryCall (S : Type) where
  | basisrs_init
  | basisrs_deinit
  | basisrs_file_info_get_mipmap_levels (data : basisu_file_info)
  | basisrs_file_info_get_slice_info (data : basisu_file_info)
  | basisrs_create_transcoder
  | basisrs_destroy_transcoder (me : Ptr)
  | on_transcoder (c : SessionCall S)

/-- Whether the call is `basisrs_init` or `basisrs_deinit`. -/
def EntryCall.isLifecycle {S : Type} : EntryCall S → Bool
  | .basisrs_init => true
  | .basisrs_deinit => true
  | _ => false

/-- Effect of one call on the process state and on the transcoder object that the `me`
argument of a `SessionCall` addresses. `basisrs_init`, `basisrs_deinit`,
`basisrs_create_transcoder` and `basisrs_destroy_transcoder` act on the process state as
defined above; the two file-info accessors only read `*data`; an entry point that takes a
transcoder calls one method on it with the arguments it was given, which acts on that
object and, through `lib_effect`, on whatever the wrapped library keeps in its own
tables. `g_pGlobal_codebook` is `static` in the `.cpp` file, so no code outside the file
can name it. -/
def entryStep {L T S : Type} (basisu_transcoder_init : L → L)
    (lib_effect : SessionCall S → L → L) (cls : basisu_transcoder T S) (c : EntryCall S)
    (w : Global L × T) : Global L × T :=
  match c with
  | .basisrs_init => (basisrs_init basisu_transcoder_init w.1, w.2)
  | .basisrs_deinit => (basisrs_deinit w.1, w.2)
  | .basisrs_file_info_get_mipmap_levels _ => w
  | .basisrs_file_info_get_slice_info _ => w
  | .basisrs_create_transcoder => ((basisrs_create_transcoder w.1).2, w.2)
  | .basisrs_destroy_transcoder me => (basisrs_destroy_transcoder me w.1, w.2)
  | .on_transcoder sc =>
    ({ w.1 with tables := lib_effect sc w.1.tables }, sessionStep cls sc w.2)

/-! ## Theorems: process-wide lifecycle -/

section Lifecycle

theorem run_append {L : Type} (f : L → L) (a b : List Call) (s : Global L) :
    run f (a ++ b) s = run f b (run f a s) := by
  simp [run, List.foldl_append]

theorem runLifecycle_concat {L : Type} (f : L → L) (cs : List LifecycleCall)
    (c : LifecycleCall) (s : Global L) :
    runLifecycle f (cs ++ [c]) s = apiStep f c.toCall (runLifecycle f cs s) := by
  simp [runLifecycle, run, List.foldl_append]

theorem codebookInv_initial {L : Type} (t : L) : CodebookInv (Global.initial t) := by
  simp [CodebookInv, Global.initial]

theorem codebookInv_init {L : Type} (f : L → L) (s : Global L) (h : CodebookInv s) :
    CodebookInv (basisrs_init f s) := by
  obtain ⟨h1, h2, h3, h4, h5, h6⟩ := h
  cases hp : s.g_pGlobal_codebook with
  | none =>
    rw [hp] at h1
    simp only [Option.toList] at h1
    refine ⟨?_, ?_, ?_, ?_, ?_, ?_⟩
    · simp [basisrs_init, new_codebook, hp, h1]
    · simp [basisrs_init, new_codebook, hp]
    · intro p hm
      have := h3 p (by simpa [basisrs_init, new_codebook, hp] using hm)
      simp [basisrs_init, new_codebook, hp]
      omega
    · simpa [basisrs_init, new_codebook, hp] using h4
    · intro p hq hm
      have hlt := h3 p (by simpa [basisrs_init, new_codebook, hp] using hm)
      simp [basisrs_init, new_codebook, hp] at hq
      omega
    · simp [basisrs_init, new_codebook, hp, h1, h6]
  | some q =>
    have e : basisrs_init f s = { s with tables := f s.tables } := by
      simp [basisrs_init, hp]
    rw [e]
    exact ⟨h1, h2, h3, h4, h5, h6⟩

theorem codebookInv_deinit {L : Type} (s : Global L) (h : CodebookInv s) :
    CodebookInv (basisrs_deinit s) := by
  obtain ⟨h1, h2, h3, h4, h5, h6⟩ := h
  cases hp : s.g_pGlobal_codebook with
  | none =>
    have e : basisrs_deinit s = s := by simp [basisrs_deinit, hp]
    rw [e]
    exact ⟨h1, h2, h3, h4, h5, h6⟩
  | some q =>
    rw [hp] at h1
    simp only [Option.toList] at h1
    refine ⟨?_, ?_, ?_, ?_, ?_, ?_⟩
    · simp [basisrs_deinit, delete_codebook, hp, h1]
    · simp [basisrs_deinit, delete_codebook, hp]
    · intro p hm
      have e : (basisrs_deinit s).cb_constructed = s.cb_constructed := by
        simp [basisrs_deinit, delete_codebook, hp]
      rw [e]
      simp only [basisrs_deinit, delete_codebook, hp, List.mem_cons] at hm
      rcases hm with rfl | hm
      · exact h2 _ hp
      · exact h3 p hm
    · simp only [basisrs_deinit, delete_codebook, hp, List.nodup_cons]
      exact ⟨h5 q hp, h4⟩
    · simp [basisrs_deinit, delete_codebook, hp]
    · simp [basisrs_deinit, delete_codebook, hp, h1, h6]

theorem codebookInv_step {L : Type} (f : L → L) (c : Call) (s : Global L)
    (h : CodebookInv s) : CodebookInv (apiStep f c s) := by
  cases c with
  | init => exact codebookInv_init f s h
  | deinit => exact codebookInv_deinit s h
  | create => exact h
  | destroy me =>
    cases me with
    | none => exact h
    | some t => exact h

theorem codebookInv_run {L : Type} (f : L → L) (cs : List Call) (s : Global L)
    (h : CodebookInv s) : CodebookInv (run f cs s) := by
  induction cs generalizing s with
  | nil => exact h
  | cons c cs ih => exact ih _ (codebookInv_step f c s h)

/-- C1. `basisrs_init` is idempotent on the global codebook. In a state whose global
codebook is already constructed the call constructs nothing, destroys nothing and leaves
the global pointer on the very same object; in every state the global pointer is non-null
after the call; and a second call changes nothing of the state a single call leaves, apart
from the wrapped library's own table initialisation having run once more (so nothing at
all when that initialisation is idempotent). -/
theorem basisrs_init_idempotent {L : Type} (basisu_transcoder_init : L → L) (s : Global L) :
    (∀ p, s.g_pGlobal_codebook = some p →
      (basisrs_init basisu_transcoder_init s).g_pGlobal_codebook = some p ∧
      (basisrs_init basisu_transcoder_init s).cb_constructed = s.cb_constructed ∧
      (basisrs_init basisu_transcoder_init s).cb_live = s.cb_live ∧
      (basisrs_init basisu_transcoder_init s).cb_destroyed = s.cb_destroyed) ∧
    (basisrs_init basisu_transcoder_init s).g_pGlobal_codebook.isSome = true ∧
    (s.g_pGlobal_codebook = none →
      (basisrs_init basisu_transcoder_init s).g_pGlobal_codebook = some s.cb_constructed ∧
      s.cb_constructed ∈ (basisrs_init basisu_transcoder_init s).cb_live) ∧
    basisrs_init basisu_transcoder_init (basisrs_init basisu_transcoder_init s) =
      { basisrs_init basisu_transcoder_init s with
        tables := basisu_transcoder_init (basisu_transcoder_init s.tables) } ∧
    (basisu_transcoder_init (basisu_transcoder_init s.tables) = basisu_transcoder_init s.tables →
      basisrs_init basisu_transcoder_init (basisrs_init basisu_transcoder_init s) =
        basisrs_init basisu_transcoder_init s) := by
  cases hp : s.g_pGlobal_codebook with
  | none =>
    refine ⟨by simp, ?_, ?_, ?_, ?_⟩
    · simp [basisrs_init, new_codebook, hp]
    · simp [basisrs_init, new_codebook, hp]
    · simp [basisrs_init, new_codebook, hp]
    · intro h
      simp [basisrs_init, new_codebook, hp, h]
  | some q =>
    refine ⟨?_, ?_, by simp, ?_, ?_⟩
    · intro p hq
      simp [basisrs_init, hp, ← hq]
    · simp [basisrs_init, hp]
    · simp [basisrs_init, hp]
    · intro h
      simp [basisrs_init, hp, h]

/-- Instance of C1 at a state with codebook 0 constructed and a table initialisation that
is idempotent (it sets a flag). -/
theorem basisrs_init_idempotent_witness :
    (basisrs_init (fun _ => true)
        (basisrs_init (fun _ => true) (Global.initial false))).g_pGlobal_codebook = some 0 ∧
    basisrs_init (fun _ => true) (basisrs_init (fun _ => true) (basisrs_init (fun _ => true)
        (Global.initial false))) =
      basisrs_init (fun _ => true) (basisrs_init (fun _ => true) (Global.initial false)) :=
  ⟨((basisrs_init_idempotent (fun _ => true)
      (basisrs_init (fun _ => true) (Global.initial false))).1 0 (by decide)).1,
   (basisrs_init_idempotent (fun _ => true)
      (basisrs_init (fun _ => true) (Global.initial false))).2.2.2.2 (by decide)⟩

/-- C2. `basisrs_deinit` releases and nulls the global state and is safe when
uninitialised. In every state the global pointer is null after the call and the call
deletes exactly the codebook the pointer held (one `delete` when it was non-null, none
when it was null), which is then no longer live; codebook construction, the library
tables and the transcoders are untouched; a call made while the pointer is null leaves the
whole state unchanged, so a second `basisrs_deinit` changes nothing. -/
theorem basisrs_deinit_releases {L : Type} (s : Global L) :
    (basisrs_deinit s).g_pGlobal_codebook = none ∧
    (basisrs_deinit s).cb_destroyed = s.g_pGlobal_codebook.toList ++ s.cb_destroyed ∧
    (∀ p, s.g_pGlobal_codebook = some p →
      p ∉ (basisrs_deinit s).cb_live ∧
      (basisrs_deinit s).cb_live = s.cb_live.filter (fun q => q ≠ p)) ∧
    (s.g_pGlobal_codebook = none → basisrs_deinit s = s) ∧
    basisrs_deinit (basisrs_deinit s) = basisrs_deinit s ∧
    (basisrs_deinit s).cb_constructed = s.cb_constructed ∧
    (basisrs_deinit s).tables = s.tables ∧
    (basisrs_deinit s).tr_live = s.tr_live := by
  cases hp : s.g_pGlobal_codebook with
  | none => simp [basisrs_deinit, hp]
  | some q => simp [basisrs_deinit, delete_codebook, hp]

/-- Instance of C2 at the state after one `basisrs_init` (codebook 0 is deleted) and at the
initial state (nothing changes). -/
theorem basisrs_deinit_releases_witness :
    (0 ∉ (basisrs_deinit (basisrs_init id (Global.initial ()))).cb_live ∧
      (basisrs_deinit (basisrs_init id (Global.initial ()))).cb_destroyed = [0]) ∧
    basisrs_deinit (Global.initial ()) = Global.initial () :=
  ⟨⟨((basisrs_deinit_releases (basisrs_init id (Global.initial ()))).2.2.1 0 (by decide)).1,
    (basisrs_deinit_releases (basisrs_init id (Global.initial ()))).2.1⟩,
   (basisrs_deinit_releases (Global.initial ())).2.2.2.1 (by decide)⟩

theorem init_ptr_isSome {L : Type} (f : L → L) (s : Global L) :
    (basisrs_init f s).g_pGlobal_codebook.isSome = true := by
  cases hp : s.g_pGlobal_codebook <;> simp [basisrs_init, new_codebook, hp]

theorem deinit_ptr_none {L : Type} (s : Global L) :
    (basisrs_deinit s).g_pGlobal_codebook = none := by
  cases hp : s.g_pGlobal_codebook <;> simp [basisrs_deinit, delete_codebook, hp]

theorem lifecycle_ptr_isSome_iff {L : Type} (f : L → L) (t : L) (cs : List LifecycleCall) :
    (runLifecycle f cs (Global.initial t)).g_pGlobal_codebook.isSome = true ↔
      cs.getLast? = some LifecycleCall.init := by
  rcases List.eq_nil_or_concat cs with rfl | ⟨l, c, rfl⟩
  · simp [runLifecycle, run, Global.initial]
  · rw [List.concat_eq_append, runLifecycle_concat]
    cases c with
    | init => simp [LifecycleCall.toCall, apiStep, init_ptr_isSome]
    | deinit => simp [LifecycleCall.toCall, apiStep, deinit_ptr_none]

/-- C3. Codebook lifecycle over call sequences. Starting from the initial state, after any
finite sequence `cs` of `basisrs_init` / `basisrs_deinit` calls: the next call `c`
constructs a codebook exactly when it is `basisrs_init` made while the global pointer is
null, and deletes a codebook (the one the pointer holds) exactly when it is
`basisrs_deinit` made while the pointer is non-null; the pointer is non-null if and only if
`cs` is non-empty and its last call is `basisrs_init`; the live codebooks are exactly the
one the pointer holds, so at most one is live; no codebook has been deleted twice, no live
codebook has been deleted, and every constructed codebook is live or deleted. -/
theorem codebook_lifecycle {L : Type} (basisu_transcoder_init : L → L) (t : L)
    (cs : List LifecycleCall) (c : LifecycleCall) :
    (runLifecycle basisu_transcoder_init (cs ++ [c]) (Global.initial t)).cb_constructed =
      (runLifecycle basisu_transcoder_init cs (Global.initial t)).cb_constructed +
        (if c = LifecycleCall.init ∧
            (runLifecycle basisu_transcoder_init cs (Global.initial t)).g_pGlobal_codebook = none
         then 1 else 0) ∧
    (runLifecycle basisu_transcoder_init (cs ++ [c]) (Global.initial t)).cb_destroyed =
      (if c = LifecycleCall.deinit
         then (runLifecycle basisu_transcoder_init cs (Global.initial t)).g_pGlobal_codebook.toList
         else []) ++
        (runLifecycle basisu_transcoder_init cs (Global.initial t)).cb_destroyed ∧
    ((runLifecycle basisu_transcoder_init cs (Global.initial t)).g_pGlobal_codebook.isSome = true ↔
      cs.getLast? = some LifecycleCall.init) ∧
    (runLifecycle basisu_transcoder_init cs (Global.initial t)).cb_live =
      (runLifecycle basisu_transcoder_init cs (Global.initial t)).g_pGlobal_codebook.toList ∧
    (runLifecycle basisu_transcoder_init cs (Global.initial t)).cb_live.length ≤ 1 ∧
    (runLifecycle basisu_transcoder_init cs (Global.initial t)).cb_destroyed.Nodup ∧
    (∀ p ∈ (runLifecycle basisu_transcoder_init cs (Global.initial t)).cb_live,
      p ∉ (runLifecycle basisu_transcoder_init cs (Global.initial t)).cb_destroyed) ∧
    (runLifecycle basisu_transcoder_init cs (Global.initial t)).cb_constructed =
      (runLifecycle basisu_transcoder_init cs (Global.initial t)).cb_destroyed.length +
        (runLifecycle basisu_transcoder_init cs (Global.initial t)).cb_live.length := by
  have hinv : CodebookInv (runLifecycle basisu_transcoder_init cs (Global.initial t)) :=
    codebookInv_run _ _ _ (codebookInv_initial t)
  have hlast := lifecycle_ptr_isSome_iff basisu_transcoder_init t cs
  rw [runLifecycle_concat]
  generalize runLifecycle basisu_transcoder_init cs (Global.initial t) = S at hinv hlast ⊢
  obtain ⟨h1, h2, h3, h4, h5, h6⟩ := hinv
  refine ⟨?_, ?_, hlast, h1, ?_, h4, ?_, h6⟩
  · cases c <;> cases hp : S.g_pGlobal_codebook <;>
      simp [LifecycleCall.toCall, apiStep, basisrs_init, basisrs_deinit, new_codebook,
        delete_codebook, hp]
  · cases c <;> cases hp : S.g_pGlobal_codebook <;>
      simp [LifecycleCall.toCall, apiStep, basisrs_init, basisrs_deinit, new_codebook,
        delete_codebook, hp]
  · rw [h1]
    cases S.g_pGlobal_codebook <;> simp
  · intro p hm
    rw [h1] at hm
    cases hp : S.g_pGlobal_codebook with
    | none => simp [hp] at hm
    | some q =>
      simp [hp] at hm
      subst hm
      exact h5 _ hp

theorem bound_step {L : Type} (f : L → L) (c : Call) (s : Global L)
    (ha : callAllowed c s = true)
    (hb : ∀ o ∈ s.tr_live, o.2 = s.g_pGlobal_codebook ∧ s.g_pGlobal_codebook.isSome = true) :
    ∀ o ∈ (apiStep f c s).tr_live,
      o.2 = (apiStep f c s).g_pGlobal_codebook ∧
      (apiStep f c s).g_pGlobal_codebook.isSome = true := by
  cases c with
  | init =>
    cases hp : s.g_pGlobal_codebook with
    | none =>
      intro o ho
      have ho2 : o ∈ s.tr_live := by
        simpa [apiStep, basisrs_init, new_codebook, hp] using ho
      have := (hb o ho2).2
      simp [hp] at this
    | some q =>
      intro o ho
      have ho2 : o ∈ s.tr_live := by simpa [apiStep, basisrs_init, hp] using ho
      have := (hb o ho2).1
      simp [apiStep, basisrs_init, hp, this]
  | deinit =>
    intro o ho
    have he : s.tr_live = [] := by simpa [callAllowed] using ha
    have ht : (apiStep f Call.deinit s).tr_live = s.tr_live := by
      cases hp : s.g_pGlobal_codebook <;>
        simp [apiStep, basisrs_deinit, delete_codebook, hp]
    rw [ht, he] at ho
    simp at ho
  | create =>
    have hs : s.g_pGlobal_codebook.isSome = true := by simpa [callAllowed] using ha
    intro o ho
    simp only [apiStep, basisrs_create_transcoder, List.mem_cons] at ho ⊢
    rcases ho with rfl | ho
    · exact ⟨rfl, hs⟩
    · exact hb o ho
  | destroy me =>
    cases me with
    | none => exact hb
    | some t =>
      intro o ho
      simp only [apiStep, basisrs_destroy_transcoder, List.mem_filter] at ho ⊢
      exact hb o ho.1

theorem bound_run {L : Type} (f : L → L) (cs : List Call) (s : Global L)
    (ha : followsProtocol f cs s = true)
    (hb : ∀ o ∈ s.tr_live, o.2 = s.g_pGlobal_codebook ∧ s.g_pGlobal_codebook.isSome = true) :
    ∀ o ∈ (run f cs s).tr_live,
      o.2 = (run f cs s).g_pGlobal_codebook ∧ (run f cs s).g_pGlobal_codebook.isSome = true := by
  induction cs generalizing s with
  | nil => exact hb
  | cons c cs ih =>
    simp only [followsProtocol, Bool.and_eq_true] at ha
    exact ih (apiStep f c s) ha.2 (bound_step f c s ha.1 hb)

/-- C4, as stated, fails on the code. After `basisrs_init`, `basisrs_create_transcoder`,
`basisrs_deinit` the transcoder 0 is still live and bound to codebook 0, which
`basisrs_deinit` has deleted; and after a lone `basisrs_create_transcoder` the live
transcoder 0 is bound to no codebook at all. -/
theorem sessions_bound_to_live_codebook_counterexample :
    sessionsBoundToLiveCodebook
        (run id [Call.init, Call.create, Call.deinit] (Global.initial ())) = false ∧
    codebook_of (run id [Call.init, Call.create, Call.deinit] (Global.initial ())) 0 =
      some (some 0) ∧
    (run id [Call.init, Call.create, Call.deinit] (Global.initial ())).cb_live = [] ∧
    (run id [Call.init, Call.create, Call.deinit] (Global.initial ())).cb_destroyed = [0] ∧
    sessionsBoundToLiveCodebook (run id [Call.create] (Global.initial ())) = false ∧
    codebook_of (run id [Call.create] (Global.initial ())) 0 = some none := by
  decide

/-- C4, amended. In every state reached from the initial state by a sequence of
`basisrs_init`, `basisrs_deinit`, `basisrs_create_transcoder` and
`basisrs_destroy_transcoder` calls in which a transcoder is created only while the global
codebook is constructed and `basisrs_deinit` is called only while no transcoder is live,
every live transcoder is bound to the global codebook, and that codebook is live. -/
theorem sessions_bound_to_live_codebook_under_protocol {L : Type}
    (basisu_transcoder_init : L → L) (t : L) (cs : List Call)
    (h : followsProtocol basisu_transcoder_init cs (Global.initial t) = true) :
    sessionsBoundToLiveCodebook (run basisu_transcoder_init cs (Global.initial t)) = true ∧
    (∀ o ∈ (run basisu_transcoder_init cs (Global.initial t)).tr_live,
      o.2 = (run basisu_transcoder_init cs (Global.initial t)).g_pGlobal_codebook) ∧
    (∀ o ∈ (run basisu_transcoder_init cs (Global.initial t)).tr_live,
      ∀ p, o.2 = some p →
        p ∉ (run basisu_transcoder_init cs (Global.initial t)).cb_destroyed) := by
  have hinv : CodebookInv (run basisu_transcoder_init cs (Global.initial t)) :=
    codebookInv_run _ _ _ (codebookInv_initial t)
  have hb := bound_run basisu_transcoder_init cs (Global.initial t) h
    (by simp [Global.initial])
  generalize run basisu_transcoder_init cs (Global.initial t) = S at hinv hb ⊢
  obtain ⟨h1, _, _, _, h5, _⟩ := hinv
  refine ⟨?_, fun o ho => (hb o ho).1, ?_⟩
  · simp only [sessionsBoundToLiveCodebook, List.all_eq_true]
    intro o ho
    obtain ⟨e1, e2⟩ := hb o ho
    rw [e1, h1]
    cases hp : S.g_pGlobal_codebook with
    | none => simp [hp] at e2
    | some q => simp
  · intro o ho p hp
    exact h5 p (by rw [← (hb o ho).1]; exact hp)

/-- Instance of the amended C4: a transcoder is created and destroyed, the codebook is
released and constructed anew, and a second transcoder is created; it is live and bound to
the live codebook 1. -/
theorem sessions_bound_to_live_codebook_under_protocol_witness :
    followsProtocol id
        [Call.init, Call.create, Call.destroy (some 0), Call.deinit, Call.init, Call.create]
        (Global.initial ()) = true ∧
    (run id
        [Call.init, Call.create, Call.destroy (some 0), Call.deinit, Call.init, Call.create]
        (Global.initial ())).tr_live = [(1, some 1)] ∧
    sessionsBoundToLiveCodebook
        (run id
          [Call.init, Call.create, Call.destroy (some 0), Call.deinit, Call.init, Call.create]
          (Global.initial ())) = true :=
  ⟨by decide, by decide,
   (sessions_bound_to_live_codebook_under_protocol id ()
      [Call.init, Call.create, Call.destroy (some 0), Call.deinit, Call.init, Call.create]
      (by decide)).1⟩

/-- C5, as stated, fails on the code. The sequence `basisrs_init`, `basisrs_deinit`
contains a `basisrs_init`, yet the transcoder created after it (transcoder 0) is handed a
null codebook. -/
theorem create_after_init_counterexample :
    LifecycleCall.init ∈ [LifecycleCall.init, LifecycleCall.deinit] ∧
    (basisrs_create_transcoder
      (runLifecycle id [LifecycleCall.init, LifecycleCall.deinit] (Global.initial ()))).1 =
        some 0 ∧
    codebook_of (basisrs_create_transcoder
      (runLifecycle id [LifecycleCall.init, LifecycleCall.deinit] (Global.initial ()))).2 0 =
        some none := by
  decide

/-- C5, amended. After any sequence of `basisrs_init` / `basisrs_deinit` calls, the
transcoder `basisrs_create_transcoder` creates is a fresh non-null object bound to the
current value of the global codebook pointer; that value is non-null exactly when the
sequence is non-empty and its last call is `basisrs_init`, and when it is non-null the
codebook it names is live and has not been deleted. Creating the transcoder leaves the
global pointer as it was. -/
theorem create_binds_current_codebook {L : Type} (basisu_transcoder_init : L → L) (t : L)
    (cs : List LifecycleCall) :
    (basisrs_create_transcoder (runLifecycle basisu_transcoder_init cs (Global.initial t))).1 =
      some (runLifecycle basisu_transcoder_init cs (Global.initial t)).tr_constructed ∧
    codebook_of
        (basisrs_create_transcoder (runLifecycle basisu_transcoder_init cs (Global.initial t))).2
        (runLifecycle basisu_transcoder_init cs (Global.initial t)).tr_constructed =
      some (runLifecycle basisu_transcoder_init cs (Global.initial t)).g_pGlobal_codebook ∧
    ((runLifecycle basisu_transcoder_init cs (Global.initial t)).g_pGlobal_codebook.isSome = true ↔
      cs.getLast? = some LifecycleCall.init) ∧
    (∀ p, (runLifecycle basisu_transcoder_init cs (Global.initial t)).g_pGlobal_codebook = some p →
      p ∈ (basisrs_create_transcoder
            (runLifecycle basisu_transcoder_init cs (Global.initial t))).2.cb_live ∧
      p ∉ (basisrs_create_transcoder
            (runLifecycle basisu_transcoder_init cs (Global.initial t))).2.cb_destroyed) ∧
    (basisrs_create_transcoder
        (runLifecycle basisu_transcoder_init cs (Global.initial t))).2.g_pGlobal_codebook =
      (runLifecycle basisu_transcoder_init cs (Global.initial t)).g_pGlobal_codebook := by
  have hinv : CodebookInv (runLifecycle basisu_transcoder_init cs (Global.initial t)) :=
    codebookInv_run _ _ _ (codebookInv_initial t)
  have hlast := lifecycle_ptr_isSome_iff basisu_transcoder_init t cs
  generalize runLifecycle basisu_transcoder_init cs (Global.initial t) = S at hinv hlast ⊢
  obtain ⟨h1, _, _, _, h5, _⟩ := hinv
  refine ⟨rfl, ?_, hlast, ?_, rfl⟩
  · simp [codebook_of, basisrs_create_transcoder]
  · intro p hp
    refine ⟨?_, h5 p hp⟩
    simp [basisrs_create_transcoder, h1, hp]

/-- Instance of the amended C5 after `basisrs_init`, `basisrs_deinit`, `basisrs_init`: the
transcoder created is bound to codebook 1, which is live. -/
theorem create_binds_current_codebook_witness :
    codebook_of (basisrs_create_transcoder (runLifecycle id
        [LifecycleCall.init, LifecycleCall.deinit, LifecycleCall.init] (Global.initial ()))).2 0 =
      some (some 1) ∧
    1 ∈ (basisrs_create_transcoder (runLifecycle id
        [LifecycleCall.init, LifecycleCall.deinit, LifecycleCall.init]
        (Global.initial ()))).2.cb_live :=
  ⟨(create_binds_current_codebook id ()
      [LifecycleCall.init, LifecycleCall.deinit, LifecycleCall.init]).2.1,
   ((create_binds_current_codebook id ()
      [LifecycleCall.init, LifecycleCall.deinit, LifecycleCall.init]).2.2.2.1 1 (by decide)).1⟩

end Lifecycle

/-! ## Theorems: views and delegation -/

section Delegation

/-- C6. The pointer and length views are faithful borrowed views of the file info's
sequences. For every `basisu_file_info` `f`, the view `basisrs_file_info_get_mipmap_levels`
returns has `size` equal to the length of `f.m_image_mipmap_levels` and, for every `i`
below `size`, its `i`-th value is the `i`-th element of that sequence; likewise
`basisrs_file_info_get_slice_info` and `f.m_slice_info`; and `f` is the same after either
call. -/
theorem file_info_views_faithful (f : basisu_file_info) :
    (basisrs_file_info_get_mipmap_levels f).1.size = f.m_image_mipmap_levels.length ∧
    (∀ i, i < (basisrs_file_info_get_mipmap_levels f).1.size →
      ∃ v, (basisrs_file_info_get_mipmap_levels f).1.values[i]? = some v ∧
        f.m_image_mipmap_levels[i]? = some v) ∧
    (basisrs_file_info_get_slice_info f).1.size = f.m_slice_info.length ∧
    (∀ i, i < (basisrs_file_info_get_slice_info f).1.size →
      ∃ d, (basisrs_file_info_get_slice_info f).1.values[i]? = some d ∧
        f.m_slice_info[i]? = some d) ∧
    (basisrs_file_info_get_mipmap_levels f).2 = f ∧
    (basisrs_file_info_get_slice_info f).2 = f := by
  refine ⟨rfl, ?_, rfl, ?_, rfl, rfl⟩
  · intro i hi
    have hi2 : i < f.m_image_mipmap_levels.length := hi
    exact ⟨f.m_image_mipmap_levels[i], List.getElem?_eq_getElem hi2,
      List.getElem?_eq_getElem hi2⟩
  · intro i hi
    have hi2 : i < f.m_slice_info.length := hi
    exact ⟨f.m_slice_info[i], List.getElem?_eq_getElem hi2, List.getElem?_eq_getElem hi2⟩

/-- Instance of C6 at `sample_file_info`: the slice view has four entries and its entry 3
is the alpha slice of level 1; the mipmap view has one entry, 2. -/
theorem file_info_views_faithful_witness :
    (basisrs_file_info_get_slice_info sample_file_info).1.size = 4 ∧
    (∃ d, (basisrs_file_info_get_slice_info sample_file_info).1.values[3]? = some d ∧
      sample_file_info.m_slice_info[3]? = some d) ∧
    (∃ v, (basisrs_file_info_get_mipmap_levels sample_file_info).1.values[0]? = some v ∧
      sample_file_info.m_image_mipmap_levels[0]? = some v) :=
  ⟨(file_info_views_faithful sample_file_info).2.2.1,
   (file_info_views_faithful sample_file_info).2.2.2.1 3 (by decide),
   (file_info_views_faithful sample_file_info).2.1 0 (by decide)⟩

/-- C7. Every query entry point delegates unchanged. For every wrapped transcoder class
and object and all arguments, each of the eleven query entry points returns exactly what
the same-named method returns on `(pData, data_size, ...)`, every remaining argument in
the position of the same-named parameter, out-parameters included. -/
theorem query_entry_points_delegate {T S : Type} (cls : basisu_transcoder T S) (me : T)
    (pData : VoidPtr) (data_size : Nat) (full_validation : Bool) (userdata0 userdata1 : Nat)
    (image_index level_index orig_width orig_height total_blocks : Nat)
    (file_info : basisu_file_info) (image_info : basisu_image_info)
    (level_info : basisu_image_level_info) :
    basisrs_validate_header cls me pData data_size = cls.validate_header me pData data_size ∧
    basisrs_validate_file_checksums cls me pData data_size full_validation =
      cls.validate_file_checksums me pData data_size full_validation ∧
    basisrs_get_texture_type cls me pData data_size = cls.get_texture_type me pData data_size ∧
    basisrs_get_userdata cls me pData data_size userdata0 userdata1 =
      cls.get_userdata me pData data_size userdata0 userdata1 ∧
    basisrs_get_total_images cls me pData data_size = cls.get_total_images me pData data_size ∧
    basisrs_get_tex_format cls me pData data_size = cls.get_tex_format me pData data_size ∧
    basisrs_get_total_image_levels cls me pData data_size image_index =
      cls.get_total_image_levels me pData data_size image_index ∧
    basisrs_get_image_level_desc cls me pData data_size image_index level_index orig_width
        orig_height total_blocks =
      cls.get_image_level_desc me pData data_size image_index level_index orig_width
        orig_height total_blocks ∧
    basisrs_get_file_info cls me pData data_size file_info =
      cls.get_file_info me pData data_size file_info ∧
    basisrs_get_image_info cls me pData data_size image_info image_index =
      cls.get_image_info me pData data_size image_info image_index ∧
    basisrs_get_image_level_info cls me pData data_size level_info image_index level_index =
      cls.get_image_level_info me pData data_size level_info image_index level_index :=
  ⟨rfl, rfl, rfl, rfl, rfl, rfl, rfl, rfl, rfl, rfl, rfl⟩

/-- Instance of C7 at a wrapped class whose answers show the position of each argument:
the image index 3 and the level index 5 reach `get_image_level_info` in that order, and
the three out-parameters of `get_image_level_desc` come back in their own positions. -/
theorem query_entry_points_delegate_witness :
    (basisrs_get_image_level_info accepting () none 7 blank_level_info 3 5).2.m_image_index =
      3 ∧
    (basisrs_get_image_level_info accepting () none 7 blank_level_info 3 5).2.m_level_index =
      5 ∧
    basisrs_get_image_level_desc accepting () none 7 3 5 1 2 4 = (true, 13, 25, 47) ∧
    basisrs_get_image_level_desc accepting () none 7 3 5 1 2 4 =
      accepting.get_image_level_desc () none 7 3 5 1 2 4 :=
  ⟨by decide, by decide, by decide,
   (query_entry_points_delegate accepting () none 7 true 0 0 3 5 1 2 4 sample_file_info
      { m_image_index := 0, m_total_levels := 0, m_orig_width := 0, m_orig_height := 0,
        m_width := 0, m_height := 0, m_num_blocks_x := 0, m_num_blocks_y := 0,
        m_total_blocks := 0, m_first_slice_index := 0, m_alpha_flag := false,
        m_iframe_flag := false }
      blank_level_info).2.2.2.2.2.2.2.1⟩

end Delegation

/-! ## Theorems: the session, against the design document's transcoder -/

section Session

theorem first_match_none (q : basisu_slice_info → Bool) (l : List basisu_slice_info) (k : Nat)
    (h : first_match q l k = none) : ∀ d ∈ l, q d = false := by
  induction l generalizing k with
  | nil => simp
  | cons a rest ih =>
    simp only [first_match] at h
    by_cases ha : q a = true
    · simp [ha] at h
    · simp only [ha, Bool.false_eq_true, if_false] at h
      intro d hd
      rcases List.mem_cons.mp hd with rfl | hd
      · simpa using ha
      · exact ih (k + 1) h d hd

theorem first_match_some (q : basisu_slice_info → Bool) (l : List basisu_slice_info) (k r : Nat)
    (h : first_match q l k = some r) :
    k ≤ r ∧ ∃ d, l[r - k]? = some d ∧ q d = true ∧
      ∀ j, j < r - k → ∀ e, l[j]? = some e → q e = false := by
  induction l generalizing k with
  | nil => simp [first_match] at h
  | cons a rest ih =>
    simp only [first_match] at h
    by_cases ha : q a = true
    · simp only [ha, if_true, Option.some.injEq] at h
      subst h
      exact ⟨le_refl _, a, by simp, ha, by intro j hj; omega⟩
    · simp only [ha, Bool.false_eq_true, if_false] at h
      obtain ⟨hk, d, hd, hq, hlt⟩ := ih (k + 1) h
      have e : r - k = (r - (k + 1)) + 1 := by omega
      refine ⟨by omega, d, ?_, hq, ?_⟩
      · rw [e, List.getElem?_cons_succ]
        exact hd
      · intro j hj x hx
        cases j with
        | zero =>
          simp only [List.getElem?_cons_zero, Option.some.injEq] at hx
          subst hx
          simpa using ha
        | succ j =>
          rw [List.getElem?_cons_succ] at hx
          exact hlt j (by omega) x hx

/-- C8. `basisrs_find_slice` returns the wrapped `find_slice` unchanged, and against the
design document's slice locator its result is either -1, and then no slice of the
container has the given image index, level index and alpha flag, or the index of a slice
that has them (the first such slice); so the not-found case is the sentinel -1 and never
an index into the slice table. -/
theorem find_slice_sentinel_or_match {S : Type} (P : SpecOpen S) (me : SessionState)
    (pData : VoidPtr) (data_size : Nat) (image_index level_index : Nat) (alpha_data : Bool) :
    basisrs_find_slice (spec_transcoder P) me pData data_size image_index level_index
        alpha_data =
      (spec_transcoder P).find_slice me pData data_size image_index level_index alpha_data ∧
    ((basisrs_find_slice (spec_transcoder P) me pData data_size image_index level_index
          alpha_data = -1 ∧
        ∀ d ∈ container_slices P pData data_size,
          ¬ (d.m_image_index = image_index ∧ d.m_level_index = level_index ∧
              d.m_alpha_flag = alpha_data)) ∨
      (∃ (k : Nat) (d : basisu_slice_info),
          basisrs_find_slice (spec_transcoder P) me pData data_size image_index
            level_index alpha_data = (k : Int) ∧
          k < (container_slices P pData data_size).length ∧
          (container_slices P pData data_size)[k]? = some d ∧
          d.m_image_index = image_index ∧ d.m_level_index = level_index ∧
          d.m_alpha_flag = alpha_data ∧
          ∀ j, j < k → ∀ e, (container_slices P pData data_size)[j]? = some e →
            ¬ (e.m_image_index = image_index ∧ e.m_level_index = level_index ∧
                e.m_alpha_flag = alpha_data))) := by
  refine ⟨rfl, ?_⟩
  have hm : ∀ d : basisu_slice_info,
      slice_matches image_index level_index alpha_data d = true ↔
        (d.m_image_index = image_index ∧ d.m_level_index = level_index ∧
          d.m_alpha_flag = alpha_data) := by
    intro d
    simp [slice_matches, and_assoc]
  have hm2 : ∀ d : basisu_slice_info,
      slice_matches image_index level_index alpha_data d = false →
        ¬ (d.m_image_index = image_index ∧ d.m_level_index = level_index ∧
          d.m_alpha_flag = alpha_data) := by
    intro d hd hc
    rw [(hm d).mpr hc] at hd
    exact Bool.noConfusion hd
  cases hf : first_match (slice_matches image_index level_index alpha_data)
      (container_slices P pData data_size) 0 with
  | none =>
    left
    refine ⟨?_, ?_⟩
    · simp [basisrs_find_slice, spec_transcoder, spec_find_slice, hf]
    · intro d hd
      exact hm2 d (first_match_none _ _ _ hf d hd)
  | some r =>
    right
    obtain ⟨_, d, hd, hq, hlt⟩ := first_match_some _ _ _ _ hf
    simp only [Nat.sub_zero] at hd hlt
    have hr : r < (container_slices P pData data_size).length := by
      by_contra hge
      rw [List.getElem?_eq_none (by omega)] at hd
      exact Option.noConfusion hd
    obtain ⟨e1, e2, e3⟩ := (hm d).mp hq
    refine ⟨r, d, ?_, hr, hd, e1, e2, e3, ?_⟩
    · simp [basisrs_find_slice, spec_transcoder, spec_find_slice, hf]
    · intro j hj e he
      exact hm2 e (hlt j hj e he)

/-- Instance of C8 at `sample_open`: the alpha slice of image 0, level 1 is slice 3, and
image 1 has no slice, which is reported as -1. -/
theorem find_slice_sentinel_or_match_witness :
    basisrs_find_slice (spec_transcoder sample_open) SessionState.Uninitialized (some []) 0
        0 1 true = 3 ∧
    basisrs_find_slice (spec_transcoder sample_open) SessionState.Uninitialized (some []) 0
        1 0 false = -1 ∧
    basisrs_find_slice (spec_transcoder sample_open) SessionState.Uninitialized (some []) 0
        1 0 false =
      (spec_transcoder sample_open).find_slice SessionState.Uninitialized (some []) 0 1 0
        false :=
  ⟨by decide, by decide,
   (find_slice_sentinel_or_match sample_open SessionState.Uninitialized (some []) 0 1 0
      false).1⟩

theorem spec_ready_after_start {S : Type} (P : SpecOpen S) (me : SessionState)
    (pData : VoidPtr) (data_size : Nat)
    (h : (spec_start_transcoding P me pData data_size).1 = true) :
    spec_is_ready (spec_start_transcoding P me pData data_size).2 = true := by
  cases me with
  | CodebooksReady p n =>
    simp only [spec_start_transcoding]
    split <;> rfl
  | Uninitialized =>
    simp only [spec_start_transcoding] at h ⊢
    by_cases hd : P.decompress_codebooks pData data_size = true
    · simp [hd, spec_is_ready]
    · simp [hd] at h
  | Stopped =>
    simp only [spec_start_transcoding] at h ⊢
    by_cases hd : P.decompress_codebooks pData data_size = true
    · simp [hd, spec_is_ready]
    · simp [hd] at h

theorem spec_ready_step {S : Type} (P : SpecOpen S) (c : SessionCall S) (me : SessionState)
    (hr : spec_is_ready me = true) (hc : c.isStop = false) :
    spec_is_ready (sessionStep (spec_transcoder P) c me) = true := by
  cases c with
  | stop_transcoding => simp [SessionCall.isStop] at hc
  | start_transcoding pData data_size =>
    cases me with
    | CodebooksReady p n =>
      simp only [sessionStep, basisrs_start_transcoding, spec_transcoder,
        spec_start_transcoding]
      split <;> rfl
    | Uninitialized => simp [spec_is_ready] at hr
    | Stopped => simp [spec_is_ready] at hr
  | _ => exact hr

theorem spec_ready_run {S : Type} (P : SpecOpen S) (cs : List (SessionCall S))
    (me : SessionState) (hr : spec_is_ready me = true) (hc : ∀ c ∈ cs, c.isStop = false) :
    spec_is_ready (runSession (spec_transcoder P) cs me) = true := by
  induction cs generalizing me with
  | nil => exact hr
  | cons c cs ih =>
    exact ih (sessionStep (spec_transcoder P) c me)
      (spec_ready_step P c me hr (hc c (List.mem_cons_self c cs)))
      (fun d hd => hc d (List.mem_cons_of_mem c hd))

theorem spec_not_ready_after_stop (me : SessionState) :
    spec_is_ready (spec_stop_transcoding me).2 = false := by
  cases me <;> rfl

/-- C9. Session readiness, against the design document's session state machine. Once
`basisrs_start_transcoding` has returned true, `basisrs_get_ready_to_transcode` returns
true after every sequence of further calls on the transcoder that contains no
`basisrs_stop_transcoding`, and false after a `basisrs_stop_transcoding` that follows; in
every state `basisrs_get_ready_to_transcode` is false after `basisrs_stop_transcoding`;
and an entry point that takes the transcoder as `const` (every query and both transcode
entry points) leaves the transcoder, hence its readiness, as it was. -/
theorem readiness_until_stop {S : Type} (P : SpecOpen S) (me : SessionState)
    (pData : VoidPtr) (data_size : Nat) (cs : List (SessionCall S)) (c : SessionCall S) :
    ((basisrs_start_transcoding (spec_transcoder P) me pData data_size).1 = true →
      (∀ d ∈ cs, d.isStop = false) →
      basisrs_get_ready_to_transcode (spec_transcoder P)
          (runSession (spec_transcoder P) cs
            (basisrs_start_transcoding (spec_transcoder P) me pData data_size).2) = true ∧
      basisrs_get_ready_to_transcode (spec_transcoder P)
          (basisrs_stop_transcoding (spec_transcoder P)
            (runSession (spec_transcoder P) cs
              (basisrs_start_transcoding (spec_transcoder P) me pData data_size).2)).2 =
        false) ∧
    basisrs_get_ready_to_transcode (spec_transcoder P)
        (basisrs_stop_transcoding (spec_transcoder P) me).2 = false ∧
    (c.isConst = true →
      sessionStep (spec_transcoder P) c me = me ∧
      basisrs_get_ready_to_transcode (spec_transcoder P)
          (sessionStep (spec_transcoder P) c me) =
        basisrs_get_ready_to_transcode (spec_transcoder P) me) := by
  refine ⟨?_, spec_not_ready_after_stop me, ?_⟩
  · intro hs hc
    exact ⟨spec_ready_run P cs _ (spec_ready_after_start P me pData data_size hs) hc,
      spec_not_ready_after_stop _⟩
  · intro hconst
    have e : sessionStep (spec_transcoder P) c me = me := by
      cases c <;> first | rfl | simp [SessionCall.isConst] at hconst
    exact ⟨e, by rw [e]⟩

/-- Instance of C9 at `sample_open`: after a successful start, a header validation, a failed
start on another buffer and a slice transcode, the session is still ready; after a stop it
is not. -/
theorem readiness_until_stop_witness :
    basisrs_get_ready_to_transcode (spec_transcoder sample_open)
        (runSession (spec_transcoder sample_open)
          [SessionCall.validate_header (some []) 0, SessionCall.start_transcoding (some [1]) 1,
            SessionCall.transcode_slice (some []) 0 0 (some []) 1 2 8 0 0 none none 0 (-1) (-1)]
          (basisrs_start_transcoding (spec_transcoder sample_open) SessionState.Uninitialized
            (some []) 0).2) = true ∧
    basisrs_get_ready_to_transcode (spec_transcoder sample_open)
        (basisrs_stop_transcoding (spec_transcoder sample_open)
          (runSession (spec_transcoder sample_open)
            [SessionCall.validate_header (some []) 0,
              SessionCall.start_transcoding (some [1]) 1,
              SessionCall.transcode_slice (some []) 0 0 (some []) 1 2 8 0 0 none none 0 (-1)
                (-1)]
            (basisrs_start_transcoding (spec_transcoder sample_open)
              SessionState.Uninitialized (some []) 0).2)).2 = false :=
  (readiness_until_stop sample_open SessionState.Uninitialized (some []) 0
      [SessionCall.validate_header (some []) 0, SessionCall.start_transcoding (some [1]) 1,
        SessionCall.transcode_slice (some []) 0 0 (some []) 1 2 8 0 0 none none 0 (-1) (-1)]
      SessionCall.get_ready_to_transcode).1 (by decide) (by simp [SessionCall.isStop])

/-- C10. Transcoding requires a started session, against the design document's session
state machine: for a transcoder on which `basisrs_get_ready_to_transcode` is false, and
for all other arguments, `basisrs_transcode_slice` and `basisrs_transcode_image_level`
return false. -/
theorem transcode_requires_started {S : Type} (P : SpecOpen S) (me : SessionState)
    (h : basisrs_get_ready_to_transcode (spec_transcoder P) me = false)
    (pData : VoidPtr) (data_size : Nat) (slice_index image_index level_index : Nat)
    (pOutput_blocks : VoidPtr) (output_blocks_buf_size_in_blocks_or_pixels : Nat)
    (fmt : block_format) (tex_fmt : transcoder_texture_format)
    (output_block_stride_in_bytes : Nat) (decode_flags : Nat)
    (output_row_pitch_in_blocks_or_pixels : Nat) (pState : Option S) (pAlpha_blocks : VoidPtr)
    (output_rows_in_pixels : Nat) (channel0 channel1 : Int) :
    (basisrs_transcode_slice (spec_transcoder P) me pData data_size slice_index pOutput_blocks
        output_blocks_buf_size_in_blocks_or_pixels fmt output_block_stride_in_bytes
        decode_flags output_row_pitch_in_blocks_or_pixels pState pAlpha_blocks
        output_rows_in_pixels channel0 channel1).1 = false ∧
    (basisrs_transcode_image_level (spec_transcoder P) me pData data_size image_index
        level_index pOutput_blocks output_blocks_buf_size_in_blocks_or_pixels tex_fmt
        decode_flags output_row_pitch_in_blocks_or_pixels pState output_rows_in_pixels).1 =
      false := by
  have hr : spec_is_ready me = false := h
  simp [basisrs_transcode_slice, basisrs_transcode_image_level, spec_transcoder, hr]

/-- Instance of C10 at `sample_open`, whose block encoder accepts every call: on a session
stopped after a successful start both transcode entry points return false. -/
theorem transcode_requires_started_witness :
    basisrs_get_ready_to_transcode (spec_transcoder sample_open)
        (basisrs_stop_transcoding (spec_transcoder sample_open)
          (basisrs_start_transcoding (spec_transcoder sample_open)
            SessionState.Uninitialized (some []) 0).2).2 = false ∧
    (basisrs_transcode_slice (spec_transcoder sample_open)
        (basisrs_stop_transcoding (spec_transcoder sample_open)
          (basisrs_start_transcoding (spec_transcoder sample_open)
            SessionState.Uninitialized (some []) 0).2).2
        (some []) 0 0 (some []) 1 2 8 0 0 none none 0 (-1) (-1)).1 = false ∧
    (basisrs_transcode_image_level (spec_transcoder sample_open)
        (basisrs_stop_transcoding (spec_transcoder sample_open)
          (basisrs_start_transcoding (spec_transcoder sample_open)
            SessionState.Uninitialized (some []) 0).2).2
        (some []) 0 0 0 (some []) 1 2 0 0 none 0).1 = false :=
  ⟨by decide,
   transcode_requires_started sample_open
     (basisrs_stop_transcoding (spec_transcoder sample_open)
       (basisrs_start_transcoding (spec_transcoder sample_open)
         SessionState.Uninitialized (some []) 0).2).2
     (by decide) (some []) 0 0 0 0 (some []) 1 2 2 8 0 0 none none 0 (-1) (-1)⟩

end Session

/-! ## Theorems: the mirrored enumerations -/

section Enumerations

/-- C12. The mirrored composite-format enumeration is a well-formed code table. The
enumerators of `transcoder_texture_format` that are not aliases (`cTFETC1_RGB` to
`cTFRGBA4444` in declaration order, and `cTFBC7_ALT`) are 22 in number, no two have the
same value, every value is at least 0 and below `cTFTotalTextureFormats`, which is 22, and
every integer from 0 to 21 is the value of one of them; the twelve compatibility aliases
are the ones the header lists, and each has the value of the enumerator it is defined
from; and the enumerators of `block_format` are numbered 0, 1, 2, ... in declaration
order, `cTotalBlockFormats` being 30, the number of block formats before it. -/
theorem format_enumerations_well_formed :
    proper_enumerators "cTFTotalTextureFormats" transcoder_texture_format_decl =
      ["cTFETC1_RGB", "cTFETC2_RGBA", "cTFBC1_RGB", "cTFBC3_RGBA", "cTFBC4_R", "cTFBC5_RG",
        "cTFBC7_RGBA", "cTFPVRTC1_4_RGB", "cTFPVRTC1_4_RGBA", "cTFASTC_4x4_RGBA",
        "cTFATC_RGB", "cTFATC_RGBA", "cTFFXT1_RGB", "cTFPVRTC2_4_RGB", "cTFPVRTC2_4_RGBA",
        "cTFETC2_EAC_R11", "cTFETC2_EAC_RG11", "cTFRGBA32", "cTFRGB565", "cTFBGR565",
        "cTFRGBA4444", "cTFBC7_ALT"] ∧
    (∃ vs, enum_values transcoder_texture_format_decl
          (proper_enumerators "cTFTotalTextureFormats" transcoder_texture_format_decl) =
        some vs ∧
      vs.length = 22 ∧ vs.Nodup ∧ (∀ v ∈ vs, 0 ≤ v ∧ v < 22) ∧
      (∀ n : Nat, n < 22 → (n : Int) ∈ vs)) ∧
    enum_value transcoder_texture_format_decl "cTFTotalTextureFormats" = some 22 ∧
    alias_pairs transcoder_texture_format_decl =
      [("cTFETC1", "cTFETC1_RGB"), ("cTFETC2", "cTFETC2_RGBA"), ("cTFBC1", "cTFBC1_RGB"),
        ("cTFBC3", "cTFBC3_RGBA"), ("cTFBC4", "cTFBC4_R"), ("cTFBC5", "cTFBC5_RG"),
        ("cTFBC7_M6_RGB", "cTFBC7_RGBA"), ("cTFBC7_M5_RGBA", "cTFBC7_RGBA"),
        ("cTFBC7_M6_OPAQUE_ONLY", "cTFBC7_RGBA"), ("cTFBC7_M5", "cTFBC7_RGBA"),
        ("cTFASTC_4x4", "cTFASTC_4x4_RGBA"),
        ("cTFATC_RGBA_INTERPOLATED_ALPHA", "cTFATC_RGBA")] ∧
    (∀ a ∈ alias_pairs transcoder_texture_format_decl,
      (enum_value transcoder_texture_format_decl a.1).isSome = true ∧
      enum_value transcoder_texture_format_decl a.1 =
        enum_value transcoder_texture_format_decl a.2) ∧
    alias_pairs block_format_decl = [] ∧
    (proper_enumerators "cTotalBlockFormats" block_format_decl).length = 30 ∧
    enum_values block_format_decl (proper_enumerators "cTotalBlockFormats" block_format_decl) =
      some ((List.range 30).map (fun n => (n : Int))) ∧
    enum_value block_format_decl "cTotalBlockFormats" = some 30 := by
  refine ⟨by decide, ⟨[0, 1, 2, 3, 4, 5, 6, 8, 9, 10, 11, 12, 17, 18, 19, 20, 21, 13, 14, 15,
    16, 7], by decide, by decide, by decide, by decide, by decide⟩, by decide, by decide,
    by decide, by decide, by decide, by decide, by decide⟩

end Enumerations

/-! ## Theorems: the transcode entry points and the declared interface -/

section Interface

/-- C11. The transcode entry points pass every argument through unchanged and in position.
For every wrapped class and all arguments, `basisrs_transcode_slice` returns the wrapped
`transcode_slice` applied to its fourteen arguments in order, and
`basisrs_transcode_image_level` the wrapped `transcode_image_level` applied to its eleven
arguments in order; a row pitch of 0 and a row count of 0 reach the library as 0; the
default arguments the header declares are `decode_flags = 0`, row pitch `= 0`,
`pState = nullptr`, `pAlpha_blocks = nullptr`, rows `= 0`, `channel0 = -1` and
`channel1 = -1`, and a call that leaves them out reaches the library with exactly those
values. -/
theorem transcode_entry_points_pass_through {T S : Type} (cls : basisu_transcoder T S)
    (me : T) (pData : VoidPtr) (data_size : Nat) (slice_index image_index level_index : Nat)
    (pOutput_blocks : VoidPtr) (output_blocks_buf_size_in_blocks_or_pixels : Nat)
    (fmt : block_format) (tex_fmt : transcoder_texture_format)
    (output_block_stride_in_bytes : Nat) (decode_flags : Nat)
    (output_row_pitch_in_blocks_or_pixels : Nat) (pState : Option S) (pAlpha_blocks : VoidPtr)
    (output_rows_in_pixels : Nat) (channel0 channel1 : Int) :
    basisrs_transcode_slice cls me pData data_size slice_index pOutput_blocks
        output_blocks_buf_size_in_blocks_or_pixels fmt output_block_stride_in_bytes
        decode_flags output_row_pitch_in_blocks_or_pixels pState pAlpha_blocks
        output_rows_in_pixels channel0 channel1 =
      cls.transcode_slice me pData data_size slice_index pOutput_blocks
        output_blocks_buf_size_in_blocks_or_pixels fmt output_block_stride_in_bytes
        decode_flags output_row_pitch_in_blocks_or_pixels pState pAlpha_blocks
        output_rows_in_pixels channel0 channel1 ∧
    basisrs_transcode_image_level cls me pData data_size image_index level_index
        pOutput_blocks output_blocks_buf_size_in_blocks_or_pixels tex_fmt decode_flags
        output_row_pitch_in_blocks_or_pixels pState output_rows_in_pixels =
      cls.transcode_image_level me pData data_size image_index level_index pOutput_blocks
        output_blocks_buf_size_in_blocks_or_pixels tex_fmt decode_flags
        output_row_pitch_in_blocks_or_pixels pState output_rows_in_pixels ∧
    basisrs_transcode_slice cls me pData data_size slice_index pOutput_blocks
        output_blocks_buf_size_in_blocks_or_pixels fmt output_block_stride_in_bytes
        decode_flags 0 pState pAlpha_blocks 0 channel0 channel1 =
      cls.transcode_slice me pData data_size slice_index pOutput_blocks
        output_blocks_buf_size_in_blocks_or_pixels fmt output_block_stride_in_bytes
        decode_flags 0 pState pAlpha_blocks 0 channel0 channel1 ∧
    basisrs_transcode_image_level cls me pData data_size image_index level_index
        pOutput_blocks output_blocks_buf_size_in_blocks_or_pixels tex_fmt decode_flags 0
        pState 0 =
      cls.transcode_image_level me pData data_size image_index level_index pOutput_blocks
        output_blocks_buf_size_in_blocks_or_pixels tex_fmt decode_flags 0 pState 0 ∧
    declared_defaults header_decls "basisrs_transcode_slice" =
      some [("decode_flags", CDefault.int 0),
        ("output_row_pitch_in_blocks_or_pixels", CDefault.int 0),
        ("pState", CDefault.nullptr), ("pAlpha_blocks", CDefault.nullptr),
        ("output_rows_in_pixels", CDefault.int 0), ("channel0", CDefault.int (-1)),
        ("channel1", CDefault.int (-1))] ∧
    declared_defaults header_decls "basisrs_transcode_image_level" =
      some [("decode_flags", CDefault.int 0),
        ("output_row_pitch_in_blocks_or_pixels", CDefault.int 0),
        ("pState", CDefault.nullptr), ("output_rows_in_pixels", CDefault.int 0)] ∧
    basisrs_transcode_slice_defaulted cls me pData data_size slice_index pOutput_blocks
        output_blocks_buf_size_in_blocks_or_pixels fmt output_block_stride_in_bytes =
      cls.transcode_slice me pData data_size slice_index pOutput_blocks
        output_blocks_buf_size_in_blocks_or_pixels fmt output_block_stride_in_bytes
        0 0 none none 0 (-1) (-1) ∧
    basisrs_transcode_image_level_defaulted cls me pData data_size image_index level_index
        pOutput_blocks output_blocks_buf_size_in_blocks_or_pixels tex_fmt =
      cls.transcode_image_level me pData data_size image_index level_index pOutput_blocks
        output_blocks_buf_size_in_blocks_or_pixels tex_fmt 0 0 none 0 :=
  ⟨rfl, rfl, rfl, rfl, by decide, by decide, rfl, rfl⟩

/-- Instance of C11 at a wrapped class that writes the numeric arguments it received to
the output blocks in parameter order: of a slice call with data size 100, slice 1, buffer
size 16, stride 8, flags 3, pitch 0, rows 0 and channels -1, and of an image-level call
that leaves the defaulted arguments out. -/
theorem transcode_entry_points_pass_through_witness :
    basisrs_transcode_slice recording () none 100 1 none 16 2 8 3 0 none none 0 (-1) (-1) =
      (true, some [100, 1, 16, 8, 3, 0, 0, 1, 1], none, none) ∧
    basisrs_transcode_image_level_defaulted recording () none 100 4 5 none 16 2 =
      (true, some [100, 4, 5, 16, 0, 0, 0], none) ∧
    basisrs_transcode_slice recording () none 100 1 none 16 2 8 3 0 none none 0 (-1) (-1) =
      recording.transcode_slice () none 100 1 none 16 2 8 3 0 none none 0 (-1) (-1) :=
  ⟨by decide, by decide,
   (transcode_entry_points_pass_through recording () none 100 1 4 5 none 16 2 2 8 3 0 none
      none 0 (-1) (-1)).1⟩

/-- C13, evaluated on the two files. The header declares 23 functions and the `.cpp` file
defines 23. The only declared function that no definition matches in name, return type
and parameter list is `get_texture_type`, and the only defined function that no
declaration matches is `basisrs_get_texture_type`; neither name occurs in the other file,
and the two agree in return type and parameter list. So the texture-type query is exposed
under two different names, while each of the other 22 functions is declared and defined
alike. -/
theorem texture_type_query_names_disagree :
    header_decls.length = 23 ∧ cpp_defs.length = 23 ∧
    (unmatched header_decls cpp_defs).map (fun d => d.name) = ["get_texture_type"] ∧
    (unmatched cpp_defs header_decls).map (fun f => f.name) = ["basisrs_get_texture_type"] ∧
    has_name header_decls "get_texture_type" = true ∧
    has_name cpp_defs "get_texture_type" = false ∧
    has_name cpp_defs "basisrs_get_texture_type" = true ∧
    has_name header_decls "basisrs_get_texture_type" = false ∧
    (header_decls.find? (fun d => d.name == "get_texture_type")).map
        (fun d => (d.ret, d.parameter_list)) =
      (cpp_defs.find? (fun f => f.name == "basisrs_get_texture_type")).map
        (fun f => (f.ret, f.parameter_list)) ∧
    (header_decls.filter (fun d => cpp_defs.any (fun f => same_function d f))).length = 22 := by
  decide

end Interface

/-! ## Theorems: the frame of the global codebook -/

section Frame

/-- C14. Only `basisrs_init` and `basisrs_deinit` change the global codebook. For every
process state, every transcoder and every call with its arguments of any other entry
point (`basisrs_create_transcoder`, `basisrs_destroy_transcoder`, the two file-info
accessors and every entry point that takes a transcoder), the global codebook pointer
after the call is the pointer before it, and no codebook has been constructed or deleted
by the call; in particular `basisrs_destroy_transcoder`, for every pointer `me`, leaves
the global pointer and the live and deleted codebooks as they were. -/
theorem only_lifecycle_calls_change_codebook {L T S : Type} (basisu_transcoder_init : L → L)
    (lib_effect : SessionCall S → L → L) (cls : basisu_transcoder T S) (c : EntryCall S)
    (w : Global L × T) (me : Ptr) (h : c.isLifecycle = false) :
    (entryStep basisu_transcoder_init lib_effect cls c w).1.g_pGlobal_codebook =
      w.1.g_pGlobal_codebook ∧
    (entryStep basisu_transcoder_init lib_effect cls c w).1.cb_constructed =
      w.1.cb_constructed ∧
    (entryStep basisu_transcoder_init lib_effect cls c w).1.cb_live = w.1.cb_live ∧
    (entryStep basisu_transcoder_init lib_effect cls c w).1.cb_destroyed = w.1.cb_destroyed ∧
    (basisrs_destroy_transcoder me w.1).g_pGlobal_codebook = w.1.g_pGlobal_codebook ∧
    (basisrs_destroy_transcoder me w.1).cb_live = w.1.cb_live ∧
    (basisrs_destroy_transcoder me w.1).cb_destroyed = w.1.cb_destroyed := by
  have hd : (basisrs_destroy_transcoder me w.1).g_pGlobal_codebook = w.1.g_pGlobal_codebook ∧
      (basisrs_destroy_transcoder me w.1).cb_live = w.1.cb_live ∧
      (basisrs_destroy_transcoder me w.1).cb_destroyed = w.1.cb_destroyed := by
    cases me <;> exact ⟨rfl, rfl, rfl⟩
  cases c with
  | basisrs_init => simp [EntryCall.isLifecycle] at h
  | basisrs_deinit => simp [EntryCall.isLifecycle] at h
  | basisrs_file_info_get_mipmap_levels data => exact ⟨rfl, rfl, rfl, rfl, hd⟩
  | basisrs_file_info_get_slice_info data => exact ⟨rfl, rfl, rfl, rfl, hd⟩
  | basisrs_create_transcoder => exact ⟨rfl, rfl, rfl, rfl, hd⟩
  | basisrs_destroy_transcoder p =>
    cases p with
    | none => exact ⟨rfl, rfl, rfl, rfl, hd⟩
    | some t => exact ⟨rfl, rfl, rfl, rfl, hd⟩
  | on_transcoder sc => exact ⟨rfl, rfl, rfl, rfl, hd⟩

/-- Instance of C14 after `basisrs_init` and `basisrs_create_transcoder`: destroying
transcoder 0 leaves the global pointer on codebook 0, which stays live, and so does a
`basisrs_stop_transcoding` call whose library side effect rewrites the tables; while
`basisrs_deinit` in the same state does null the pointer. -/
theorem only_lifecycle_calls_change_codebook_witness :
    (entryStep id (fun _ _ => ()) accepting
        (EntryCall.basisrs_destroy_transcoder (some 0))
        (run id [Call.init, Call.create] (Global.initial ()), ())).1.g_pGlobal_codebook =
      some 0 ∧
    (entryStep id (fun _ _ => ()) accepting
        (EntryCall.basisrs_destroy_transcoder (some 0))
        (run id [Call.init, Call.create] (Global.initial ()), ())).1.cb_live = [0] ∧
    (entryStep Nat.succ (fun _ _ => 0) accepting
        (EntryCall.on_transcoder SessionCall.stop_transcoding)
        (run Nat.succ [Call.init, Call.create] (Global.initial 5), ())).1.g_pGlobal_codebook =
      some 0 ∧
    (entryStep id (fun _ _ => ()) accepting EntryCall.basisrs_deinit
        (run id [Call.init, Call.create] (Global.initial ()), ())).1.g_pGlobal_codebook =
      none :=
  ⟨(only_lifecycle_calls_change_codebook id (fun _ _ => ()) accepting
      (EntryCall.basisrs_destroy_transcoder (some 0))
      (run id [Call.init, Call.create] (Global.initial ()), ()) (some 0) (by decide)).1,
   (only_lifecycle_calls_change_codebook id (fun _ _ => ()) accepting
      (EntryCall.basisrs_destroy_transcoder (some 0))
      (run id [Call.init, Call.create] (Global.initial ()), ()) (some 0) (by decide)).2.2.1,
   (only_lifecycle_calls_change_codebook Nat.succ (fun _ _ => 0) accepting
      (EntryCall.on_transcoder SessionCall.stop_transcoding)
      (run Nat.succ [Call.init, Call.create] (Global.initial 5), ()) none (by decide)).1,
   by decide⟩

end Frame

end BasisRs
